import Mathlib

set_option maxRecDepth 8000
set_option maxHeartbeats 1000000

/- Shallow embedding of the logic-simulator definition-language front end:
   scanner.py (Symbol, Scanner) and parse.py (Parser).  The external builder
   collaborators (names.py, devices.py, network.py, monitors.py) are not among
   the sources; they are modelled from the spec as an interning table and a
   parameterised builder interface.  Python file I/O is modelled by a cursor
   into the list of characters of the file; the `read(1)` lookahead character
   is an `Option Char` (`none` is Python's empty string at end of file).
   Fallible Python operations (int() conversion, list indexing, unbound local
   variables, name-table lookups) return `Option`; `none` is an exception.
   Source `while` loops are embedded as fuel-indexed recursions whose wrappers
   supply a fuel that provably suffices, so that every definition computes. -/

namespace LogSim

/-- Python str.isspace restricted to ASCII, as used by Scanner.skip_spaces. -/
def pyIsSpace (c : Char) : Bool :=
  c = ' ' || c = '\t' || c = '\n' || c = '\r' || c = '\x0B' || c = '\x0C'

/-- Python str.isdigit over the character classes modelled here: the decimal
ASCII digits plus the Unicode superscript and subscript digits.  Python's
isdigit is Unicode-aware and in particular accepts superscripts such as the
superscript two, which int() nevertheless rejects; the split between decimal
digits (which int() converts) and the other digit characters (on which int()
raises) is what matters downstream and is preserved here.  (Python accepts
further digit characters of the same non-decimal kind, all behaving like the
superscripts for every use in this program.) -/
def pyIsDigit (c : Char) : Bool :=
  c.isDigit ||
  c = '⁰' || c = '¹' || c = '²' || c = '³' || c = '⁴' ||
  c = '⁵' || c = '⁶' || c = '⁷' || c = '⁸' || c = '⁹' ||
  c = '₀' || c = '₁' || c = '₂' || c = '₃' || c = '₄' ||
  c = '₅' || c = '₆' || c = '₇' || c = '₈' || c = '₉'

/-- Python str.isalnum over the same modelled classes: ASCII alphanumerics
together with every character pyIsDigit accepts. -/
def pyIsAlnum (c : Char) : Bool := c.isAlphanum || pyIsDigit c

/-- Modelled from the spec: the identifier-interning collaborator (names.py is
absent from the sources).  `lookupOne` maps a string to a stable integer
handle, appending new strings at the end, per the spec contract
`intern(string) -> handle`. -/
structure Names where
  table : List String
deriving Repr, DecidableEq

/-- Modelled from the spec: `intern(string) -> handle`, one string at a time
(Python `names.lookup([s])`). -/
def Names.lookupOne (nm : Names) (s : String) : Nat × Names :=
  match nm.table.findIdx? (fun t => t = s) with
  | some i => (i, nm)
  | none => (nm.table.length, ⟨nm.table ++ [s]⟩)

/-- Modelled from the spec: `string_of(handle) -> string`; an out-of-range
handle raises, hence `Option`. -/
def Names.get_name_string (nm : Names) (i : Nat) : Option String :=
  nm.table.get? i

/-- The nine defined symbol kinds of scanner.py (`symbol_type_list`). -/
inductive SymType
  | DOT | FORWARDS_SLASH | COMMA | SEMICOLON | EQUALS
  | KEYWORD | NUMBER | NAME | EOF
deriving Repr, DecidableEq

/-- Payload of a symbol: an interned-name handle for NAME/KEYWORD, the literal
digit text for NUMBER (scanner.py stores the string returned by get_number). -/
inductive SymId
  | handle : Nat → SymId
  | numeral : String → SymId
deriving Repr, DecidableEq

/-- scanner.py Symbol.  Python initialises `type`, `id`, `line_number`,
`cursor_pos_at_start_of_line` and `cursor_position` to None; the three
location fields are modelled with inert defaults because no code path reads
them before the scanner assigns them. `cursor_position` is `file.tell() - 1`,
which can be -1, hence `Int`. -/
structure Symbol where
  type : Option SymType := none
  id : Option SymId := none
  line_number : Nat := 1
  cursor_pos_at_start_of_line : Nat := 0
  cursor_position : Int := -1
deriving Repr, DecidableEq

/-- scanner.py Scanner state: the open file (name and contents), the cursor
`pos` (Python `file.tell()`), the lookahead `current` (current_character, with
`none` for the empty string at EOF), line bookkeeping, and the keyword handles
interned at construction. -/
structure Scanner where
  fname : String
  input : List Char
  pos : Nat
  current : Option Char
  line_number : Nat
  cursor_pos_at_start_of_line : Nat
  devices_id : Nat
  connections_id : Nat
  monitors_id : Nat
deriving Repr, DecidableEq

namespace Scanner

/-- Python `self.file.read(1)`: store the next character in `current` and move
the cursor; at end of file `current` becomes `none` and the cursor stays. -/
def read1 (s : Scanner) : Scanner :=
  match s.input.get? s.pos with
  | some c => { s with current := some c, pos := s.pos + 1 }
  | none => { s with current := none }

/-- Scanner.update_line_data. -/
def update_line_data (s : Scanner) : Scanner :=
  { s with line_number := s.line_number + 1, cursor_pos_at_start_of_line := s.pos }

/-- Scanner.advance: on a newline lookahead update the line data, then read
one character ahead. -/
def advance (s : Scanner) : Scanner :=
  if s.current = some '\n' then (s.update_line_data).read1 else s.read1

/-- Fuel bound for the scanner's loops: every loop iteration either consumes a
character (pos strictly grows, bounded by the input length) or clears the
lookahead, so `2 * length + 4` steps always suffice. -/
def meas (s : Scanner) : Nat :=
  2 * (s.input.length - s.pos) + (if s.current.isSome then 1 else 0)

/-- Canonical fuel supplied by the loop wrappers. -/
def scanFuel (s : Scanner) : Nat := 2 * s.input.length + 4

/-- Scanner.skip_spaces loop body, fuel-indexed. -/
def skip_spacesGo : Nat → Scanner → Scanner
  | 0, s => s
  | fuel+1, s =>
    match s.current with
    | some c => if pyIsSpace c then skip_spacesGo fuel s.advance else s
    | none => s

/-- Scanner.skip_spaces: skip to the next non-whitespace character. -/
def skip_spaces (s : Scanner) : Scanner := skip_spacesGo (scanFuel s) s

/-- Scanner.get_name loop, fuel-indexed: collect a maximal alphanumeric run. -/
def get_nameGo : Nat → Scanner → List Char × Scanner
  | 0, s => ([], s)
  | fuel+1, s =>
    match s.current with
    | some c =>
      if pyIsAlnum c then
        (c :: (get_nameGo fuel s.advance).1, (get_nameGo fuel s.advance).2)
      else ([], s)
    | none => ([], s)

/-- Scanner.get_name. -/
def get_name (s : Scanner) : String × Scanner :=
  (String.mk (get_nameGo (scanFuel s) s).1, (get_nameGo (scanFuel s) s).2)

/-- Scanner.get_number loop, fuel-indexed: collect a maximal digit run. -/
def get_numberGo : Nat → Scanner → List Char × Scanner
  | 0, s => ([], s)
  | fuel+1, s =>
    match s.current with
    | some c =>
      if pyIsDigit c then
        (c :: (get_numberGo fuel s.advance).1, (get_numberGo fuel s.advance).2)
      else ([], s)
    | none => ([], s)

/-- Scanner.get_number (the payload stays a string, as in the source). -/
def get_number (s : Scanner) : String × Scanner :=
  (String.mk (get_numberGo (scanFuel s) s).1, (get_numberGo (scanFuel s) s).2)

/-- Python `file.readline()` viewed from a cursor: the characters up to and
including the first newline (or to end of file). -/
def lineTake : List Char → List Char
  | [] => []
  | c :: cs => if c = '\n' then [c] else c :: lineTake cs

/-- Python `self.file.readline()`: consume the rest of the current line,
leaving the lookahead character untouched. -/
def readline (s : Scanner) : String × Scanner :=
  let r := lineTake (s.input.drop s.pos)
  (String.mk r, { s with pos := s.pos + r.length })

/-- Scanner.skip_single_line_cmt. -/
def skip_single_line_cmt (s : Scanner) : Scanner :=
  ((s.readline).2.update_line_data).advance

/-- Scanner.skip_mult_line_cmt inner loop: skip until a `*` or end of file. -/
def skip_multGo : Nat → Scanner → Scanner
  | 0, s => s
  | fuel+1, s =>
    match s.current with
    | none => s
    | some c => if c = '*' then s else skip_multGo fuel s.advance

/-- Scanner.skip_mult_line_cmt: skip past the closing `*` when found; at end
of file only a warning is printed and the scanner returns as is. -/
def skip_mult_line_cmt (s : Scanner) : Scanner :=
  let s1 := skip_multGo (scanFuel s) s.advance
  match s1.current with
  | none => s1
  | some _ => s1.advance

/-- Scanner.skip_comments, fuel-indexed: whitespace, then repeatedly a
single-line (`#`) or multi-line (`*`) comment. -/
def skip_commentsGo : Nat → Scanner → Scanner
  | 0, s => s
  | fuel+1, s =>
    let s1 := s.skip_spaces
    if s1.current = some '#' then skip_commentsGo fuel s1.skip_single_line_cmt
    else if s1.current = some '*' then skip_commentsGo fuel s1.skip_mult_line_cmt
    else s1

/-- Scanner.skip_comments. -/
def skip_comments (s : Scanner) : Scanner := skip_commentsGo (scanFuel s) s

/-- The scanner's reserved words (keywords_list). -/
def keywords_list : List String := ["DEVICES", "CONNECTIONS", "MONITORS"]

/-- Scanner.get_symbol: skip comments, then classify the next symbol from its
first character.  Returns the symbol and the updated scanner and name table.
An unrecognised character yields the default (invalid, `type = none`) symbol
and is consumed. -/
def get_symbol (s0 : Scanner) (nm : Names) : Symbol × Scanner × Names :=
  let s := s0.skip_comments
  let base : Symbol :=
    { type := none, id := none, line_number := s.line_number,
      cursor_pos_at_start_of_line := s.cursor_pos_at_start_of_line,
      cursor_position := (s.pos : Int) - 1 }
  match s.current with
  | none => ({ base with type := some .EOF }, s, nm)
  | some c =>
    if c.isAlpha then
      let r := s.get_name
      let t : SymType := if r.1 ∈ keywords_list then .KEYWORD else .NAME
      let lk := nm.lookupOne r.1
      ({ base with type := some t, id := some (.handle lk.1) }, r.2, lk.2)
    else if pyIsDigit c then
      let r := s.get_number
      ({ base with type := some .NUMBER, id := some (.numeral r.1) }, r.2, nm)
    else if c = '.' then ({ base with type := some .DOT }, s.advance, nm)
    else if c = '=' then ({ base with type := some .EQUALS }, s.advance, nm)
    else if c = '/' then ({ base with type := some .FORWARDS_SLASH }, s.advance, nm)
    else if c = ',' then ({ base with type := some .COMMA }, s.advance, nm)
    else if c = ';' then ({ base with type := some .SEMICOLON }, s.advance, nm)
    else (base, s.advance, nm)

/-- Scanner.__init__ (given an already-open file): intern the three keywords
in order, then read the first character. -/
def mkInit (fname : String) (input : List Char) (nm : Names) : Scanner × Names :=
  let (d, nm) := nm.lookupOne "DEVICES"
  let (c, nm) := nm.lookupOne "CONNECTIONS"
  let (m, nm) := nm.lookupOne "MONITORS"
  (read1 { fname := fname, input := input, pos := 0, current := none,
           line_number := 1, cursor_pos_at_start_of_line := 0,
           devices_id := d, connections_id := c, monitors_id := m }, nm)

end Scanner

/-- A fresh Names() table, as constructed by logsim before the Scanner. -/
def initNames : Names := ⟨[]⟩

/-- The nine syntax-error codes allocated by Parser.__init__ through
names.unique_error_codes(9); they are only ever compared with one another, so
they are modelled as an enumeration. -/
inductive ErrType
  | NO_KEYWORD_DEVICES | NO_KEYWORD_CONNECTIONS | NO_KEYWORD_MONITORS
  | NO_EQUALS | NO_SEMICOLON | NO_COMMA | NOT_NAME | NOT_NUMBER | NOT_SYMBOL
deriving Repr, DecidableEq

/-- Parser.display_error message texts, verbatim from the source. -/
def ErrType.msg : ErrType → String
  | .NO_KEYWORD_DEVICES => "SyntaxError: Expected a keyword 'DEVICES'"
  | .NO_KEYWORD_CONNECTIONS => "SyntaxError: Expected a keyword 'CONNECTIONS'"
  | .NO_KEYWORD_MONITORS => "SyntaxError: Expected a keyword 'MONITORS'"
  | .NO_EQUALS => "SyntaxError: Expected an equals sign"
  | .NO_SEMICOLON => "SyntaxError: Expected a semicolon"
  | .NO_COMMA => "SyntaxError: Expected a comma"
  | .NOT_NAME => "SyntaxError: Expected a name"
  | .NOT_NUMBER => "SyntaxError: Expected a number"
  | .NOT_SYMBOL => "SyntaxError: Expected a legal symbol"

/-- Modelled from the spec: the device builder's error codes (devices.py is
absent from the sources); names as referenced by parse.py. -/
inductive DevErr
  | NO_ERROR | INVALID_QUALIFIER | NO_QUALIFIER | QUALIFIER_PRESENT
  | BAD_DEVICE | DEVICE_PRESENT
deriving Repr, DecidableEq

/-- Modelled from the spec: the network builder's error codes (network.py is
absent from the sources); names as referenced by parse.py. -/
inductive NetErr
  | NO_ERROR | INPUT_TO_INPUT | OUTPUT_TO_OUTPUT | INPUT_CONNECTED
  | PORT_ABSENT | DEVICE_ABSENT
deriving Repr, DecidableEq

/-- Modelled from the spec: the monitor builder's error codes (monitors.py is
absent from the sources); DEVICE_ABSENT is network.DEVICE_ABSENT, which
parse.py compares against directly. -/
inductive MonErr
  | NO_ERROR | NOT_OUTPUT | MONITOR_PRESENT | DEVICE_ABSENT
deriving Repr, DecidableEq

/-- Modelled from the spec: the external semantic-model builders
(devices/network/monitors), as the parser sees them: state-passing operations
returning error codes.  `make_connection` also returns the offending device
and port; `check_network` returns the connectivity flag and the first
undriven input's device and port handles. -/
structure Builders (σ : Type) where
  make_device : σ → Option SymId → Option SymId → Option Int → DevErr × σ
  make_connection : σ → Option SymId → Option SymId → Option SymId → Option SymId →
    (NetErr × Option SymId × Option SymId) × σ
  make_monitor : σ → Option SymId → Option SymId → MonErr × σ
  check_network : σ → Bool × Nat × Nat

/-- parse.py Parser state: the scanner, the shared name table, the one-symbol
lookahead, the error counters, the diagnostic lists, and the builder state. -/
structure PState (σ : Type) where
  scanner : Scanner
  names : Names
  symbol : Symbol
  error_count : Nat
  semerr_count : Nat
  error_output : List String
  error_to_gui : List String
  error_cursor : List Int
  errline_num : List Nat
  errline_pos : List Nat
  bstate : σ

namespace Parser

variable {σ : Type}

/-- Python `names.get_name_string(x)` applied to a stored symbol id: only an
in-range integer handle succeeds; None or a string payload raises. -/
def getNameStr (nm : Names) : Option SymId → Option String
  | some (.handle h) => nm.get_name_string h
  | _ => none

/-- Parser.display_error: record a syntax diagnostic and its location, and
bump the total error counter. -/
def display_error (st : PState σ) (e : ErrType) : PState σ :=
  { st with
    error_count := st.error_count + 1,
    error_output := st.error_output ++ [e.msg],
    error_cursor := st.error_cursor ++ [st.symbol.cursor_position],
    errline_num := st.errline_num ++ [st.symbol.line_number],
    errline_pos := st.errline_pos ++ [st.symbol.cursor_pos_at_start_of_line] }

/-- Location bookkeeping shared by the three semantic display functions. -/
def pushSemantic (st : PState σ) (m : String) : PState σ :=
  { st with
    error_count := st.error_count + 1,
    semerr_count := st.semerr_count + 1,
    error_output := st.error_output ++ [m],
    error_cursor := st.error_cursor ++ [st.symbol.cursor_position],
    errline_num := st.errline_num ++ [st.symbol.line_number],
    errline_pos := st.errline_pos ++ [st.symbol.cursor_pos_at_start_of_line] }

/-- Parser.display_error_device.  Mirrors the source exactly: the counters are
incremented, then the message is built from the names of the identifier and
(when given) the device type; `device_type_str` is only bound when `type_id`
is not None, so the BAD_DEVICE branch raises when it is None. -/
def display_error_device (st : PState σ) (e : DevErr)
    (identifier_id type_id : Option SymId) : Option (PState σ) :=
  match getNameStr st.names identifier_id with
  | none => none
  | some device_id_str =>
    let type_str? : Option (Option String) :=
      match type_id with
      | none => some none
      | some t =>
        match getNameStr st.names (some t) with
        | none => none
        | some ts => some (some ts)
    match type_str? with
    | none => none
    | some device_type_str? =>
      match e with
      | .INVALID_QUALIFIER => some (pushSemantic st
          ("InvalidParameterError: Parameter value of Device '" ++
            device_id_str ++ "' is not valid"))
      | .NO_QUALIFIER => some (pushSemantic st
          ("MissingParameterError: Parameter of Device '" ++
            device_id_str ++ "' is not specified"))
      | .QUALIFIER_PRESENT => some (pushSemantic st
          ("ExcessParametersError: Device '" ++ device_id_str ++
            "' has too many parameters specified"))
      | .BAD_DEVICE =>
        match device_type_str? with
        | none => none
        | some device_type_str => some (pushSemantic st
            ("TypeNotFoundError: Device's type '" ++ device_type_str ++
              "' does not match one of the following:\n'CLOCK','SWITCH','AND','NAND','OR','NOR','XOR','DTYPE'"))
      | .DEVICE_PRESENT => some (pushSemantic st
          ("RepeatedIdentifierError: Device '" ++ device_id_str ++
            "' is already defined"))
      | .NO_ERROR => some (pushSemantic st "Unknown error occurred")

/-- Python's `"" if x is None else names.get_name_string(x)` for the signal
device names of display_error_connection. -/
def devStr (nm : Names) : Option SymId → Option String
  | none => some ""
  | some x => getNameStr nm (some x)

/-- Same for ports, which are prefixed with a dot when present. -/
def portStr (nm : Names) : Option SymId → Option String
  | none => some ""
  | some x => (getNameStr nm (some x)).map (fun s => "." ++ s)

/-- Parser.display_error_connection. -/
def display_error_connection (st : PState σ) (e : NetErr)
    (sig1_device sig1_port sig2_device sig2_port : Option SymId) :
    Option (PState σ) :=
  match devStr st.names sig1_device, portStr st.names sig1_port,
        devStr st.names sig2_device, portStr st.names sig2_port with
  | some d1, some p1, some d2, some p2 =>
    match e with
    | .INPUT_TO_INPUT => some (pushSemantic st
        ("IllegalConnectionError: Signal '" ++ d1 ++ p1 ++ "' and '" ++
          d2 ++ p2 ++ "' are both input signals"))
    | .OUTPUT_TO_OUTPUT => some (pushSemantic st
        ("IllegalConnectionError: Signal '" ++ d1 ++ p1 ++ "' and '" ++
          d2 ++ p2 ++ "' are both output signals"))
    | .INPUT_CONNECTED => some (pushSemantic st
        ("InputPortConnectionPresentError: Signal '" ++ d1 ++ p1 ++
          "' is already connected"))
    | .PORT_ABSENT => some (pushSemantic st
        ("InvalidPortError: Device '" ++ d1 ++ "' does not have port '" ++
          p1 ++ "'"))
    | .DEVICE_ABSENT => some (pushSemantic st
        ("DeviceAbsentError:Device '" ++ d1 ++ "' is not defined"))
    | .NO_ERROR => some (pushSemantic st "Unknown error occurred")
  | _, _, _, _ => none

/-- Parser.display_error_monitor.  `port_str` is only bound when `port_id` is
not None, so the NOT_OUTPUT and MONITOR_PRESENT branches raise when it is
None (an UnboundLocalError in the source). -/
def display_error_monitor (st : PState σ) (e : MonErr)
    (device_id port_id : Option SymId) : Option (PState σ) :=
  match getNameStr st.names device_id with
  | none => none
  | some device_str =>
    let port_str? : Option (Option String) :=
      match port_id with
      | none => some none
      | some p =>
        match getNameStr st.names (some p) with
        | none => none
        | some ps => some (some ("." ++ ps))
    match port_str? with
    | none => none
    | some pstr? =>
      match e with
      | .NOT_OUTPUT =>
        match pstr? with
        | none => none
        | some port_str => some (pushSemantic st
            ("MonitorNotOutputSignalError: Signal '" ++ device_str ++
              port_str ++ "' is not an output"))
      | .MONITOR_PRESENT =>
        match pstr? with
        | none => none
        | some port_str => some (pushSemantic st
            ("MonitorPresentError: Signal '" ++ device_str ++ port_str ++
              "' is already monitored"))
      | .DEVICE_ABSENT => some (pushSemantic st
          ("DeviceAbsentError:Device '" ++ device_str ++ "' is not defined"))
      | .NO_ERROR => some (pushSemantic st "Unknown error occurred")

/-- Canonical parser-level fuel, from the scanner. -/
def pFuel (st : PState σ) : Nat := st.scanner.scanFuel

/-- The triple assignment `self.symbol, scanner state, names` after a
get_symbol call. -/
def absorbSymbol (st : PState σ) (r : Symbol × Scanner × Names) : PState σ :=
  { st with symbol := r.1, scanner := r.2.1, names := r.2.2 }

/-- Parser.read_symbol inner loop, fuel-indexed: fetch symbols, recording one
`Expected a legal symbol` diagnostic per invalid symbol, until a valid one. -/
def read_symbolGo : Nat → PState σ → PState σ
  | 0, st => st
  | fuel+1, st =>
    let st1 := absorbSymbol st (st.scanner.get_symbol st.names)
    if st1.symbol.type = none then
      read_symbolGo fuel (display_error st1 .NOT_SYMBOL)
    else st1

/-- Parser.read_symbol. -/
def read_symbol (st : PState σ) : PState σ := read_symbolGo (pFuel st) st

/-- Parser.skip_erratic_part loop, fuel-indexed: skip to the next COMMA, or
stop at a KEYWORD, SEMICOLON or EOF. -/
def skip_erraticGo : Nat → PState σ → PState σ
  | 0, st => st
  | fuel+1, st =>
    if st.symbol.type = some .COMMA then st
    else if st.symbol.type = some .KEYWORD ∨ st.symbol.type = some .SEMICOLON ∨
        st.symbol.type = some .EOF then st
    else skip_erraticGo fuel (read_symbol st)

/-- Parser.skip_erratic_part. -/
def skip_erratic_part (st : PState σ) : PState σ := skip_erraticGo (pFuel st) st

/-- A NUMBER payload as the scanner produces it: a non-empty string of
characters Python's str.isdigit accepts (not all of them decimal). -/
def digitPayload (sym : Symbol) : Prop :=
  ∃ l, sym.id = some (.numeral (String.mk l)) ∧ l ≠ [] ∧
    l.all pyIsDigit = true

/-- A symbol at which skip_erratic_part stops: COMMA, KEYWORD, SEMICOLON or
EOF. -/
def atPunct (sym : Symbol) : Prop :=
  sym.type = some .COMMA ∨ sym.type = some .KEYWORD ∨
  sym.type = some .SEMICOLON ∨ sym.type = some .EOF

/-- Parser.check_names: on a non-NAME symbol record `Expected a name` and
resynchronize. -/
def check_names (st : PState σ) : Bool × PState σ :=
  if st.symbol.type ≠ some .NAME then
    (false, skip_erratic_part (display_error st .NOT_NAME))
  else (true, st)

/-- Parser.check_number: on a non-NUMBER symbol record `Expected a number` and
resynchronize. -/
def check_number (st : PState σ) : Bool × PState σ :=
  if st.symbol.type ≠ some .NUMBER then
    (false, skip_erratic_part (display_error st .NOT_NUMBER))
  else (true, st)

/-- Parser.check_side: after a syntactically valid signal, the left-hand side
expects `=`, the right-hand side expects `,`/`;` (KEYWORD/EOF means a missing
semicolon). -/
def check_side (st : PState σ) (side : Nat) : Bool × PState σ :=
  if side = 0 then
    if st.symbol.type ≠ some .EQUALS then
      (false, skip_erratic_part (display_error st .NO_EQUALS))
    else (true, st)
  else
    if st.symbol.type = some .KEYWORD ∨ st.symbol.type = some .EOF then
      (false, skip_erratic_part (display_error st .NO_SEMICOLON))
    else if st.symbol.type = some .COMMA ∨ st.symbol.type = some .SEMICOLON then
      (true, st)
    else
      (false, skip_erratic_part (display_error st .NO_COMMA))

/-- Python `int(x)` on a stored symbol id: an integer handle converts to
itself, a digit string to its value, anything else (None included) raises. -/
def pyIntOfId : Option SymId → Option Int
  | some (.handle h) => some (h : Int)
  | some (.numeral s) =>
    if s.data ≠ [] ∧ s.data.all Char.isDigit then
      some (s.data.foldl (fun a c => 10 * a + (c.toNat - 48)) 0 : Nat)
    else none
  | none => none

/-- Parser.get_parameter: read the symbol after the forwards slash; a
non-number yields None (with a diagnostic already recorded by check_number);
otherwise `int(...)` converts the payload and one more symbol is read.  The
outer `Option` is the possible `int()` exception. -/
def get_parameter (st : PState σ) : Option (Option Int) × PState σ :=
  let st := read_symbol st
  let r := check_number st
  if r.1 = false then (some none, r.2)
  else
    match pyIntOfId r.2.symbol.id with
    | none => (none, r.2)
    | some v => (some (some v), read_symbol r.2)

/-- Parser.signame: parse `NAME` or `NAME.NAME`; `side` is 0 on the left of an
`=` and 1 elsewhere.  Returns (device id, port id, syntax_err). -/
def signame (st : PState σ) (side : Nat) :
    (Option SymId × Option SymId × Nat) × PState σ :=
  let st := read_symbol st
  let r := check_names st
  if r.1 = false then ((none, none, 1), skip_erratic_part r.2)
  else
    let st := r.2
    let device_id := st.symbol.id
    let st := read_symbol st
    if st.symbol.type = some .DOT then
      let st := read_symbol st
      let r := check_names st
      if r.1 = false then ((none, none, 1), skip_erratic_part r.2)
      else
        let st := r.2
        let port_id := st.symbol.id
        let st := read_symbol st
        let r2 := check_side st side
        if r2.1 = true then ((device_id, port_id, 0), r2.2)
        else ((none, none, 1), r2.2)
    else if st.symbol.type = some .COMMA ∨ st.symbol.type = some .SEMICOLON then
      if side = 1 then ((device_id, none, 0), st)
      else ((none, none, 1), display_error st .NO_EQUALS)
    else if st.symbol.type = some .EQUALS then
      if side = 0 then ((device_id, none, 0), st)
      else
        let st := read_symbol st
        let st :=
          if st.symbol.type = some .KEYWORD ∨ st.symbol.type = some .EOF then
            display_error st .NO_SEMICOLON
          else display_error st .NO_COMMA
        ((none, none, 1), skip_erratic_part st)
    else if st.symbol.type = some .KEYWORD ∨ st.symbol.type = some .EOF then
      if side = 1 then ((none, none, 1), display_error st .NO_SEMICOLON)
      else ((none, none, 1), display_error st .NO_EQUALS)
    else
      if side = 1 then
        let st := read_symbol st
        let st :=
          if st.symbol.type = some .KEYWORD ∨ st.symbol.type = some .EOF then
            display_error st .NO_SEMICOLON
          else display_error st .NO_COMMA
        ((none, none, 1), skip_erratic_part st)
      else ((none, none, 1), skip_erratic_part (display_error st .NO_EQUALS))

/-- Parser.add_device: one `NAME = NAME (/NUMBER)?` item of the DEVICES
section.  The builder's make_device runs only when no error has been
recorded anywhere so far; a non-success code bumps `semerr_count` (again,
inside display_error_device) as in the source. -/
def add_device (B : Builders σ) (st : PState σ) : Option (Bool × PState σ) :=
  let st := read_symbol st
  let r := check_names st
  if r.1 = false then some (false, r.2)
  else
    let st := r.2
    let identifier := st.symbol.id
    let st := read_symbol st
    if st.symbol.type = some .EQUALS then
      let st := read_symbol st
      let r := check_names st
      if r.1 = false then some (false, r.2)
      else
        let st := r.2
        let type_id := st.symbol.id
        let st := read_symbol st
        let slash : Bool := st.symbol.type = some .FORWARDS_SLASH
        let pr : Option (Option Int) × PState σ :=
          if slash then get_parameter st else (some none, st)
        match pr.1 with
        | none => none
        | some param =>
          let st := pr.2
          if slash ∧ param = none then
            some (false, st)
          else
          if st.symbol.type = some .COMMA ∨ st.symbol.type = some .SEMICOLON then
            if st.error_count = 0 then
              let d := B.make_device st.bstate identifier type_id param
              let st := { st with bstate := d.2 }
              if d.1 ≠ .NO_ERROR then
                let st := { st with semerr_count := st.semerr_count + 1 }
                match display_error_device st d.1 identifier type_id with
                | none => none
                | some st => some (false, st)
              else some (true, st)
            else some (true, st)
          else if st.symbol.type = some .KEYWORD ∨ st.symbol.type = some .EOF then
            some (false, display_error st .NO_SEMICOLON)
          else
            some (false, skip_erratic_part (display_error st .NO_COMMA))
    else
      some (false, skip_erratic_part (display_error st .NO_EQUALS))

/-- Parser.add_connection: `signal = signal`; the builder's make_connection
runs only when no error has been recorded so far. -/
def add_connection (B : Builders σ) (st : PState σ) : Option (Bool × PState σ) :=
  let r1 := signame st 0
  if r1.1.2.2 = 1 then some (false, r1.2)
  else
    let st := r1.2
    let sig1_device := r1.1.1
    let sig1_port := r1.1.2.1
    let r2 := signame st 1
    if r2.1.2.2 = 1 then some (false, r2.2)
    else
      let st := r2.2
      let sig2_device := r2.1.1
      let sig2_port := r2.1.2.1
      if st.error_count = 0 then
        let c := B.make_connection st.bstate sig1_device sig1_port sig2_device sig2_port
        let st := { st with bstate := c.2 }
        let error_type := c.1.1
        let err_device := c.1.2.1
        let err_port := c.1.2.2
        if error_type ≠ .NO_ERROR then
          let disp :=
            if err_device = none then
              display_error_connection st error_type sig1_device sig1_port
                sig2_device sig2_port
            else
              display_error_connection st error_type err_device err_port none none
          match disp with
          | none => none
          | some st => some (false, st)
        else some (true, st)
      else some (true, st)

/-- Parser.add_monitor: one signal of the MONITORS section; a builder error
bumps `semerr_count` (again, inside display_error_monitor) as in the source. -/
def add_monitor (B : Builders σ) (st : PState σ) : Option (Bool × PState σ) :=
  let r := signame st 1
  if r.1.2.2 = 1 then some (false, r.2)
  else
    let st := r.2
    let current_device := r.1.1
    let current_port := r.1.2.1
    if st.error_count = 0 then
      let m := B.make_monitor st.bstate current_device current_port
      let st := { st with bstate := m.2 }
      if m.1 ≠ .NO_ERROR then
        let st := { st with semerr_count := st.semerr_count + 1 }
        match display_error_monitor st m.1 current_device current_port with
        | none => none
        | some st => some (false, st)
      else some (true, st)
    else some (true, st)

/-- The `while self.symbol.type == COMMA` loop of parse_devices,
fuel-indexed; `flag` accumulates the section's boolean. -/
def devicesLoop (B : Builders σ) : Nat → Bool → PState σ → Option (Bool × PState σ)
  | 0, flag, st => some (flag, st)
  | fuel+1, flag, st =>
    if st.symbol.type = some .COMMA then
      match add_device B st with
      | none => none
      | some (b, st) => devicesLoop B fuel (flag && b) st
    else some (flag, st)

/-- Parser.parse_devices. -/
def parse_devices (B : Builders σ) (st : PState σ) : Option (Bool × PState σ) :=
  let st := read_symbol st
  if st.symbol.type = some .KEYWORD ∧
      st.symbol.id = some (.handle st.scanner.devices_id) then
    match add_device B st with
    | none => none
    | some (b, st) =>
      match devicesLoop B (pFuel st) b st with
      | none => none
      | some (flag, st) =>
        if st.symbol.type = some .SEMICOLON then some (flag, st)
        else some (false, st)
  else some (false, display_error st .NO_KEYWORD_DEVICES)

/-- The comma loop of parse_connections, fuel-indexed. -/
def connectionsLoop (B : Builders σ) : Nat → Bool → PState σ → Option (Bool × PState σ)
  | 0, flag, st => some (flag, st)
  | fuel+1, flag, st =>
    if st.symbol.type = some .COMMA then
      match add_connection B st with
      | none => none
      | some (b, st) => connectionsLoop B fuel (flag && b) st
    else some (flag, st)

/-- Parser.parse_connections. -/
def parse_connections (B : Builders σ) (st : PState σ) : Option (Bool × PState σ) :=
  let st :=
    if st.symbol.type ≠ some .KEYWORD ∧ st.symbol.type ≠ some .EOF then
      read_symbol st
    else st
  if st.symbol.type = some .KEYWORD ∧
      st.symbol.id = some (.handle st.scanner.connections_id) then
    match add_connection B st with
    | none => none
    | some (b, st) =>
      match connectionsLoop B (pFuel st) b st with
      | none => none
      | some (flag, st) =>
        if st.symbol.type = some .SEMICOLON then some (flag, st)
        else some (false, st)
  else some (false, display_error st .NO_KEYWORD_CONNECTIONS)

/-- The comma loop of parse_monitors, fuel-indexed. -/
def monitorsLoop (B : Builders σ) : Nat → Bool → PState σ → Option (Bool × PState σ)
  | 0, flag, st => some (flag, st)
  | fuel+1, flag, st =>
    if st.symbol.type = some .COMMA then
      match add_monitor B st with
      | none => none
      | some (b, st) => monitorsLoop B fuel (flag && b) st
    else some (flag, st)

/-- Parser.parse_monitors. -/
def parse_monitors (B : Builders σ) (st : PState σ) : Option (Bool × PState σ) :=
  let st :=
    if st.symbol.type ≠ some .KEYWORD ∧ st.symbol.type ≠ some .EOF then
      read_symbol st
    else st
  if st.symbol.type = some .KEYWORD ∧
      st.symbol.id = some (.handle st.scanner.monitors_id) then
    match add_monitor B st with
    | none => none
    | some (b, st) =>
      match monitorsLoop B (pFuel st) b st with
      | none => none
      | some (flag, st) =>
        if st.symbol.type = some .SEMICOLON then some (flag, st)
        else some (false, st)
  else some (false, display_error st .NO_KEYWORD_MONITORS)

end Parser

namespace Scanner

/-- Scanner.show_error_location, as a pure function of the file contents and
the stored location triple: re-read the full line from
`cursor_pos_at_start_of_line`, strip a trailing newline, and render the
two-line excerpt-and-caret string.  (The seek/readline side effects on the
file cursor are irrelevant once parsing is over and are not modelled.) -/
def show_error_location (input : List Char) (line_number : Nat)
    (cursor_pos_at_start_of_line : Nat) (cursor_pos_of_err : Int) : String :=
  let caret_coll_num : Int := cursor_pos_of_err - cursor_pos_at_start_of_line
  let raw := lineTake (input.drop cursor_pos_at_start_of_line)
  let line := if raw ≠ [] ∧ raw.getLast? = some '\n' then raw.dropLast else raw
  let out1 := "Line " ++ toString line_number ++ ": " ++ String.mk line ++ "\n"
  let leading : Int := caret_coll_num + (toString line_number).length + 7
  let trailing : Int := (line.length : Int) - 1 - caret_coll_num
  let out2 := String.mk (List.replicate leading.toNat ' ') ++ "^" ++
    String.mk (List.replicate trailing.toNat ' ')
  out1 ++ out2

end Scanner

namespace Parser

variable {σ : Type}

/-- Python `path.split('/')[-1]`. -/
def lastComponent (s : String) : String := (s.splitOn "/").getLastD s

/-- One iteration of print_msg's display loop: the i-th message and its
rendered source location (list indexing raises when out of range). -/
def guiPiece (st : PState σ) (i : Nat) : Option (List String) :=
  match st.error_output.get? i, st.errline_num.get? i, st.errline_pos.get? i,
      st.error_cursor.get? i with
  | some o, some ln, some lp, some cu =>
    some [o, Scanner.show_error_location st.scanner.input ln lp cu]
  | _, _, _, _ => none

/-- print_msg's `for i in range(n)` loop, appending messages and locations in
source order. -/
def guiLoop (st : PState σ) : Nat → Option (List String)
  | 0 => some []
  | k+1 =>
    match guiLoop st k, guiPiece st k with
    | some l, some p => some (l ++ p)
    | _, _ => none

/-- Parser.print_msg.  On failure it emits the count header and then each
diagnostic with its location; when `error_count > len(error_cursor)` (the
unconnected-input diagnostic has no stored location) the source finishes with
`error_to_gui.append(self.error_output[i])`, which raises an
UnboundLocalError when the preceding loop never ran (n = 0) and otherwise
re-appends entry n-1. -/
def print_msg (st : PState σ) (success : Bool) : Option (PState σ) :=
  if success then
    some { st with error_to_gui :=
      st.error_to_gui ++ ["Parsed successfully! Valid definition file!"] }
  else
    let header := "File '" ++ lastComponent st.scanner.fname ++ "' contains " ++
      toString st.error_count ++ " error(s): " ++
      toString ((st.error_count : Int) - (st.semerr_count : Int)) ++
      " syntax error(s) and " ++ toString st.semerr_count ++ " semantic error(s)\n"
    let gui0 := st.error_to_gui ++ [header]
    let n := st.error_cursor.length
    if n < st.error_count then
      match guiLoop st n with
      | none => none
      | some pieces =>
        match st.error_output.get? n with
        | none => none
        | some _ =>
          match n with
          | 0 => none
          | k+1 =>
            match st.error_output.get? k with
            | none => none
            | some piece =>
              some { st with error_to_gui := gui0 ++ pieces ++ [piece] }
    else
      match guiLoop st n with
      | none => none
      | some pieces => some { st with error_to_gui := gui0 ++ pieces }

/-- Parser.parse_network: the three sections in order; when no error was
recorded, additionally ask the network builder whether every input is
driven, recording one InputPortNotConnectedError otherwise; then print_msg
and return the success flag. -/
def parse_network (B : Builders σ) (st : PState σ) : Option (Bool × PState σ) :=
  match parse_devices B st with
  | none => none
  | some (_, st) =>
    match parse_connections B st with
    | none => none
    | some (_, st) =>
      match parse_monitors B st with
      | none => none
      | some (_, st) =>
        let success := st.error_count = 0
        if success then
          let r := B.check_network st.bstate
          let flag4 := r.1
          if flag4 = false then
            let st := { st with semerr_count := st.semerr_count + 1,
                                error_count := st.error_count + 1 }
            match st.names.get_name_string r.2.2, st.names.get_name_string r.2.1 with
            | some port_str, some device_str =>
              let st := { st with error_output := st.error_output ++
                ["InputPortNotConnectedError: Input port '" ++ port_str ++
                  "' of device '" ++ device_str ++ "' is not connected"] }
              match print_msg st false with
              | none => none
              | some st => some (false, st)
            | _, _ => none
          else
            match print_msg st true with
            | none => none
            | some st => some (true, st)
        else
          match print_msg st false with
          | none => none
          | some st => some (false, st)

/-- Construction of a Parser over a fresh Names table, as logsim does:
Scanner(path, names) then Parser(names, ..., scanner), with the initial
lookahead Symbol() left with its default (None) fields. -/
def mkParser (fname : String) (text : String) (b0 : σ) : PState σ :=
  let r := Scanner.mkInit fname text.data initNames
  { scanner := r.1, names := r.2, symbol := {}, error_count := 0,
    semerr_count := 0, error_output := [], error_to_gui := [],
    error_cursor := [], errline_num := [], errline_pos := [], bstate := b0 }

end Parser

/-- One observed builder action, for trace-recording builder instances. -/
inductive BCall
  | create (d t : Option SymId) (p : Option Int)
  | connect (d1 p1 d2 p2 : Option SymId)
  | monitor (d p : Option SymId)
deriving Repr, DecidableEq

/-- Render a stored id through the name table, for readable traces. -/
def showId (nm : Names) : Option SymId → String
  | none => "none"
  | some (.handle h) => (nm.get_name_string h).getD "?"
  | some (.numeral s) => s

/-- Render a recorded builder action in the call notation used by the spec. -/
def renderCall (nm : Names) : BCall → String
  | .create d t p =>
    "create_device(" ++ showId nm d ++ "," ++ showId nm t ++ "," ++
      (match p with | none => "none" | some v => toString v) ++ ")"
  | .connect d1 p1 d2 p2 =>
    "connect(" ++ showId nm d1 ++ "," ++ showId nm p1 ++ "," ++
      showId nm d2 ++ "," ++ showId nm p2 ++ ")"
  | .monitor d p =>
    "add_monitor(" ++ showId nm d ++ "," ++ showId nm p ++ ")"

/-- Builders that accept every action and record the calls in order, with a
fully connected network (spec round-trip and fault-isolation scenarios). -/
def acceptAll : Builders (List BCall) where
  make_device s d t p := (.NO_ERROR, s ++ [.create d t p])
  make_connection s d1 p1 d2 p2 := ((.NO_ERROR, none, none), s ++ [.connect d1 p1 d2 p2])
  make_monitor s d p := (.NO_ERROR, s ++ [.monitor d p])
  check_network _ := (true, 0, 0)

/-- Modelled from the spec: a device builder that returns DuplicateIdentifier
(devices.DEVICE_PRESENT) when the identifier was already defined and accepts
everything else, per the spec contract for `create_device`. -/
def dupDevices : Builders (List (Option SymId)) where
  make_device s d _ _ :=
    if d ∈ s then (.DEVICE_PRESENT, s) else (.NO_ERROR, s ++ [d])
  make_connection s _ _ _ _ := ((.NO_ERROR, none, none), s)
  make_monitor s _ _ := (.NO_ERROR, s)
  check_network _ := (true, 0, 0)

/-- Modelled from the spec: builders for a network in which device A2's input
I2 (the handles are fixed by the interning order of the connectivity-check
input file) is the first undriven input, so `check_fully_connected` reports
it; every explicit action is accepted. -/
def undrivenNet : Builders (List BCall) where
  make_device s d t p := (.NO_ERROR, s ++ [.create d t p])
  make_connection s d1 p1 d2 p2 := ((.NO_ERROR, none, none), s ++ [.connect d1 p1 d2 p2])
  make_monitor s d p := (.NO_ERROR, s ++ [.monitor d p])
  check_network _ := (false, 7, 9)

/-- n+1 successive get_symbol calls: the symbol returned by the last one,
with the scanner and name-table state threaded through. -/
def scanIter : Nat → Scanner → Names → Symbol × Scanner × Names
  | 0, s, nm => s.get_symbol nm
  | n+1, s, nm =>
    let r := s.get_symbol nm
    scanIter n r.2.1 r.2.2

/-- Scanner-and-names states reachable while scanning a given file: the
freshly constructed scanner (over any initial name table), and every state
after a get_symbol call. -/
inductive ScanReach (fname : String) (input : List Char) : Scanner → Names → Prop
  | init (nm0 : Names) :
      ScanReach fname input (Scanner.mkInit fname input nm0).1 (Scanner.mkInit fname input nm0).2
  | step {s : Scanner} {nm : Names} : ScanReach fname input s nm →
      ScanReach fname input (s.get_symbol nm).2.1 (s.get_symbol nm).2.2

/-- No newline occurs at an index in [a, b). -/
def noNL (l : List Char) (a b : Nat) : Prop :=
  ∀ i, a ≤ i → i < b → l.get? i ≠ some '\n'

/-- The scanner's line-tracking invariant: the cursor stays in bounds, the
line start never passes the cursor, the lookahead (when present) is the
character just before the cursor and lies on the current line (no newline
between the line start and it), and an absent lookahead means the cursor is
at or beyond the end of the file. -/
structure ScanInv (I : List Char) (s : Scanner) : Prop where
  hinput : s.input = I
  hpos : s.pos ≤ s.input.length
  hls : s.cursor_pos_at_start_of_line ≤ s.pos
  hcur : ∀ c, s.current = some c → 1 ≤ s.pos ∧
    s.input.get? (s.pos - 1) = some c ∧
    s.cursor_pos_at_start_of_line ≤ s.pos - 1 ∧
    noNL s.input s.cursor_pos_at_start_of_line (s.pos - 1)
  hnone : s.current = none → s.input.length ≤ s.pos

/-- The spec's round-trip input. -/
def inputRT : String :=
  "DEVICES SW1 = SWITCH/1, CK1 = CLOCK/2; CONNECTIONS SW1 = CK1.I1; MONITORS CK1;"

/-- The spec's single-fault-isolation input (missing `=` after SW1), completed
with well-formed CONNECTIONS and MONITORS sections. -/
def inputSF : String :=
  "DEVICES SW1 SWITCH/1, SW2 = SWITCH/1; CONNECTIONS SW2 = SW2; MONITORS SW2;"

/-- A file whose only fault is one repeated device identifier. -/
def inputDup : String :=
  "DEVICES SW1 = SWITCH/1, SW1 = SWITCH/1; CONNECTIONS SW1 = SW1; MONITORS SW1;"

/-- A syntactically and semantically clean file in which input I2 of device A2
is left undriven. -/
def inputUndriven : String :=
  "DEVICES SW1 = SWITCH/1, A1 = AND/2, A2 = AND/2; CONNECTIONS SW1 = A1.I1, SW1 = A1.I2, SW1 = A2.I1; MONITORS A1;"

/-- Round-trip run with accepting, trace-recording builders. -/
def runRT : Option (Bool × PState (List BCall)) :=
  Parser.parse_network acceptAll (Parser.mkParser "test" inputRT [])

/-- Single-fault run with accepting, trace-recording builders. -/
def runSF : Option (Bool × PState (List BCall)) :=
  Parser.parse_network acceptAll (Parser.mkParser "test" inputSF [])

/-- Duplicate-identifier run with the duplicate-detecting device builder. -/
def runDup : Option (Bool × PState (List (Option SymId))) :=
  Parser.parse_network dupDevices (Parser.mkParser "test" inputDup [])

/-- Undriven-input run with the connectivity-failing network builder. -/
def runUndriven : Option (Bool × PState (List BCall)) :=
  Parser.parse_network undrivenNet (Parser.mkParser "test" inputUndriven [])

end LogSim

namespace LogSim

namespace Scanner

theorem meas_update_line_data (s : Scanner) : s.update_line_data.meas = s.meas := rfl

theorem meas_read1_le (s : Scanner) : s.read1.meas ≤ s.meas := by
  unfold read1 meas
  cases h : s.input.get? s.pos with
  | some c =>
    obtain ⟨hlt, -⟩ := List.get?_eq_some.mp h
    simp only
    cases s.current <;> simp <;> omega
  | none => simp

theorem meas_read1_lt (s : Scanner) (h : s.current.isSome = true) :
    s.read1.meas < s.meas := by
  unfold read1 meas
  cases hc : s.current with
  | none => rw [hc] at h; simp at h
  | some c0 =>
    cases hg : s.input.get? s.pos with
    | some c =>
      obtain ⟨hlt, -⟩ := List.get?_eq_some.mp hg
      simp only [hc]
      simp
      omega
    | none => simp [hc]

theorem meas_advance_le (s : Scanner) : s.advance.meas ≤ s.meas := by
  unfold advance
  split
  · exact le_trans (meas_read1_le _) (le_of_eq (meas_update_line_data s))
  · exact meas_read1_le s

theorem meas_advance_lt (s : Scanner) (h : s.current.isSome = true) :
    s.advance.meas < s.meas := by
  unfold advance
  split
  · calc s.update_line_data.read1.meas < s.update_line_data.meas :=
        meas_read1_lt _ (by simpa [update_line_data] using h)
      _ = s.meas := meas_update_line_data s
  · exact meas_read1_lt s h

theorem meas_skip_spacesGo_le : ∀ (fuel : Nat) (s : Scanner),
    (skip_spacesGo fuel s).meas ≤ s.meas := by
  intro fuel
  induction fuel with
  | zero => intro s; exact le_rfl
  | succ fuel ih =>
    intro s
    unfold skip_spacesGo
    cases h : s.current with
    | some c =>
      by_cases hc : pyIsSpace c = true
      · simp only [hc, if_true]
        exact le_trans (ih s.advance) (meas_advance_le s)
      · simp [hc]
    | none => simp

theorem meas_skip_spaces_le (s : Scanner) : s.skip_spaces.meas ≤ s.meas :=
  meas_skip_spacesGo_le _ s

theorem meas_get_nameGo_le : ∀ (fuel : Nat) (s : Scanner),
    (get_nameGo fuel s).2.meas ≤ s.meas := by
  intro fuel
  induction fuel with
  | zero => intro s; exact le_rfl
  | succ fuel ih =>
    intro s
    unfold get_nameGo
    cases h : s.current with
    | some c =>
      by_cases hc : pyIsAlnum c = true
      · simp only [hc, if_true]
        exact le_trans (ih s.advance) (meas_advance_le s)
      · simp [hc]
    | none => simp

theorem meas_get_name_lt (s : Scanner) (c : Char) (h : s.current = some c)
    (hc : pyIsAlnum c = true) : (get_name s).2.meas < s.meas := by
  have hfuel : scanFuel s = (2 * s.input.length + 3) + 1 := rfl
  unfold get_name
  rw [hfuel]
  unfold get_nameGo
  rw [h]
  dsimp only
  simp only [hc, if_true]
  exact lt_of_le_of_lt (meas_get_nameGo_le _ s.advance)
    (meas_advance_lt s (by simp [h]))

theorem meas_get_numberGo_le : ∀ (fuel : Nat) (s : Scanner),
    (get_numberGo fuel s).2.meas ≤ s.meas := by
  intro fuel
  induction fuel with
  | zero => intro s; exact le_rfl
  | succ fuel ih =>
    intro s
    unfold get_numberGo
    cases h : s.current with
    | some c =>
      by_cases hc : pyIsDigit c = true
      · simp only [hc, if_true]
        exact le_trans (ih s.advance) (meas_advance_le s)
      · simp [hc]
    | none => simp

theorem meas_get_number_lt (s : Scanner) (c : Char) (h : s.current = some c)
    (hc : pyIsDigit c = true) : (get_number s).2.meas < s.meas := by
  have hfuel : scanFuel s = (2 * s.input.length + 3) + 1 := rfl
  unfold get_number
  rw [hfuel]
  unfold get_numberGo
  rw [h]
  dsimp only
  simp only [hc, if_true]
  exact lt_of_le_of_lt (meas_get_numberGo_le _ s.advance)
    (meas_advance_lt s (by simp [h]))

theorem meas_readline_le (s : Scanner) : (s.readline).2.meas ≤ s.meas := by
  unfold readline meas
  simp only
  cases s.current <;> simp <;> omega

theorem readline_current (s : Scanner) : (s.readline).2.current = s.current := rfl

theorem meas_skip_single_line_cmt_lt (s : Scanner) (h : s.current.isSome = true) :
    s.skip_single_line_cmt.meas < s.meas := by
  unfold skip_single_line_cmt
  have h2 : ((s.readline).2.update_line_data).current = s.current := rfl
  calc ((s.readline).2.update_line_data).advance.meas
      < ((s.readline).2.update_line_data).meas :=
        meas_advance_lt _ (by rw [h2]; exact h)
    _ = (s.readline).2.meas := meas_update_line_data _
    _ ≤ s.meas := meas_readline_le s

theorem meas_skip_multGo_le : ∀ (fuel : Nat) (s : Scanner),
    (skip_multGo fuel s).meas ≤ s.meas := by
  intro fuel
  induction fuel with
  | zero => intro s; exact le_rfl
  | succ fuel ih =>
    intro s
    unfold skip_multGo
    cases h : s.current with
    | some c =>
      by_cases hc : c = '*'
      · simp [hc]
      · simp only [hc, if_false]
        exact le_trans (ih s.advance) (meas_advance_le s)
    | none => simp

theorem meas_skip_mult_line_cmt_lt (s : Scanner) (h : s.current.isSome = true) :
    s.skip_mult_line_cmt.meas < s.meas := by
  unfold skip_mult_line_cmt
  have hle : (skip_multGo (scanFuel s) s.advance).meas ≤ s.advance.meas :=
    meas_skip_multGo_le _ _
  have hlt : s.advance.meas < s.meas := meas_advance_lt s h
  cases hcur : (skip_multGo (scanFuel s) s.advance).current with
  | none => simp only [hcur]; omega
  | some c =>
    simp only [hcur]
    have := meas_advance_le (skip_multGo (scanFuel s) s.advance)
    omega

theorem meas_skip_commentsGo_le : ∀ (fuel : Nat) (s : Scanner),
    (skip_commentsGo fuel s).meas ≤ s.meas := by
  intro fuel
  induction fuel with
  | zero => intro s; exact le_rfl
  | succ fuel ih =>
    intro s
    unfold skip_commentsGo
    have hsp := meas_skip_spaces_le s
    simp only
    split
    · rename_i h1
      refine le_trans (le_trans (ih _) ?_) hsp
      exact le_of_lt (meas_skip_single_line_cmt_lt _ (by simp [h1]))
    · split
      · rename_i h2
        refine le_trans (le_trans (ih _) ?_) hsp
        exact le_of_lt (meas_skip_mult_line_cmt_lt _ (by simp [h2]))
      · exact hsp

theorem meas_skip_comments_le (s : Scanner) : s.skip_comments.meas ≤ s.meas :=
  meas_skip_commentsGo_le _ s

theorem meas_get_name_le (s : Scanner) : (get_name s).2.meas ≤ s.meas :=
  meas_get_nameGo_le _ s

theorem meas_get_number_le (s : Scanner) : (get_number s).2.meas ≤ s.meas :=
  meas_get_numberGo_le _ s

theorem get_symbol_meas (s0 : Scanner) (nm : Names) :
    (s0.get_symbol nm).2.1.meas ≤ s0.meas ∧
    ((s0.get_symbol nm).1.type ≠ some SymType.EOF →
      (s0.get_symbol nm).2.1.meas < s0.meas) := by
  have hsc := meas_skip_comments_le s0
  unfold get_symbol
  dsimp only
  cases h : s0.skip_comments.current with
  | none =>
    refine ⟨hsc, fun hne => absurd rfl hne⟩
  | some c =>
    dsimp only
    have hsome : s0.skip_comments.current.isSome = true := by simp [h]
    have hadv : s0.skip_comments.advance.meas < s0.meas :=
      lt_of_lt_of_le (meas_advance_lt _ hsome) hsc
    by_cases h1 : c.isAlpha = true
    · rw [if_pos h1]
      have hlt : (s0.skip_comments.get_name).2.meas < s0.meas :=
        lt_of_lt_of_le
          (meas_get_name_lt _ c h (by simp [pyIsAlnum, Char.isAlphanum, h1])) hsc
      exact ⟨le_of_lt hlt, fun _ => hlt⟩
    · rw [if_neg h1]
      by_cases h2 : pyIsDigit c = true
      · rw [if_pos h2]
        have hlt : (s0.skip_comments.get_number).2.meas < s0.meas :=
          lt_of_lt_of_le (meas_get_number_lt _ c h h2) hsc
        exact ⟨le_of_lt hlt, fun _ => hlt⟩
      · rw [if_neg h2]
        by_cases h3 : c = '.'
        · rw [if_pos h3]; exact ⟨le_of_lt hadv, fun _ => hadv⟩
        · rw [if_neg h3]
          by_cases h4 : c = '='
          · rw [if_pos h4]; exact ⟨le_of_lt hadv, fun _ => hadv⟩
          · rw [if_neg h4]
            by_cases h5 : c = '/'
            · rw [if_pos h5]; exact ⟨le_of_lt hadv, fun _ => hadv⟩
            · rw [if_neg h5]
              by_cases h6 : c = ','
              · rw [if_pos h6]; exact ⟨le_of_lt hadv, fun _ => hadv⟩
              · rw [if_neg h6]
                by_cases h7 : c = ';'
                · rw [if_pos h7]; exact ⟨le_of_lt hadv, fun _ => hadv⟩
                · rw [if_neg h7]; exact ⟨le_of_lt hadv, fun _ => hadv⟩

theorem get_symbol_scanner_le (s : Scanner) (nm : Names) :
    (s.get_symbol nm).2.1.meas ≤ s.meas :=
  (get_symbol_meas s nm).1

theorem get_symbol_scanner_lt (s : Scanner) (nm : Names)
    (h : (s.get_symbol nm).1.type ≠ some SymType.EOF) :
    (s.get_symbol nm).2.1.meas < s.meas :=
  (get_symbol_meas s nm).2 h

end Scanner

namespace Parser

variable {σ : Type}

theorem display_scanner (st : PState σ) (e : ErrType) :
    (display_error st e).scanner = st.scanner := rfl

theorem display_count (st : PState σ) (e : ErrType) :
    (display_error st e).error_count = st.error_count + 1 := rfl

theorem display_output (st : PState σ) (e : ErrType) :
    (display_error st e).error_output = st.error_output ++ [e.msg] := rfl

theorem absorb_symbol (st : PState σ) (r : Symbol × Scanner × Names) :
    (absorbSymbol st r).symbol = r.1 := rfl

theorem absorb_scanner (st : PState σ) (r : Symbol × Scanner × Names) :
    (absorbSymbol st r).scanner = r.2.1 := rfl

theorem absorb_count (st : PState σ) (r : Symbol × Scanner × Names) :
    (absorbSymbol st r).error_count = st.error_count := rfl

theorem absorb_output (st : PState σ) (r : Symbol × Scanner × Names) :
    (absorbSymbol st r).error_output = st.error_output := rfl

theorem meas_lt_pFuel (st : PState σ) : st.scanner.meas < pFuel st := by
  unfold pFuel Scanner.scanFuel Scanner.meas
  split <;> omega

theorem meas_succ_lt_pFuel (st : PState σ) : st.scanner.meas + 1 < pFuel st := by
  unfold pFuel Scanner.scanFuel Scanner.meas
  split <;> omega

/-- read_symbol's loop: with enough fuel it returns a symbol of one of the
nine defined kinds and has appended exactly one `Expected a legal symbol`
diagnostic per invalid symbol it skipped. -/
theorem read_symbolGo_spec : ∀ (fuel : Nat) (st : PState σ),
    st.scanner.meas < fuel →
    ((read_symbolGo fuel st).symbol.type.isSome = true) ∧
    ∃ k, (read_symbolGo fuel st).error_count = st.error_count + k ∧
      (read_symbolGo fuel st).error_output =
        st.error_output ++ List.replicate k ErrType.NOT_SYMBOL.msg := by
  intro fuel
  induction fuel with
  | zero => intro st h; omega
  | succ fuel ih =>
    intro st h
    unfold read_symbolGo
    dsimp only
    simp only [absorb_symbol]
    by_cases hn : (st.scanner.get_symbol st.names).1.type = none
    · rw [if_pos hn]
      have hlt : (st.scanner.get_symbol st.names).2.1.meas < st.scanner.meas :=
        Scanner.get_symbol_scanner_lt _ _ (by rw [hn]; exact fun hc => by cases hc)
      have hm : (display_error
          (absorbSymbol st (st.scanner.get_symbol st.names))
          ErrType.NOT_SYMBOL).scanner.meas < fuel := by
        rw [display_scanner, absorb_scanner]
        omega
      obtain ⟨hsome, k, hc, ho⟩ := ih _ hm
      refine ⟨hsome, k + 1, ?_, ?_⟩
      · rw [hc, display_count, absorb_count]; omega
      · rw [ho, display_output, absorb_output]
        simp only [List.append_assoc, List.singleton_append,
          List.replicate_succ]
    · rw [if_neg hn]
      refine ⟨?_, 0, by rw [absorb_count]; simp, by rw [absorb_output]; simp⟩
      rw [absorb_symbol]
      exact Option.isSome_iff_ne_none.mpr hn

/-- read_symbol's loop only advances the scanner, strictly when the returned
symbol is not EOF. -/
theorem read_symbolGo_meas : ∀ (fuel : Nat) (st : PState σ),
    ((read_symbolGo fuel st).scanner.meas ≤ st.scanner.meas) ∧
    (st.scanner.meas < fuel →
      (read_symbolGo fuel st).symbol.type ≠ some SymType.EOF →
      (read_symbolGo fuel st).scanner.meas < st.scanner.meas) := by
  intro fuel
  induction fuel with
  | zero => exact fun st => ⟨le_rfl, fun h => by omega⟩
  | succ fuel ih =>
    intro st
    unfold read_symbolGo
    dsimp only
    simp only [absorb_symbol]
    by_cases hn : (st.scanner.get_symbol st.names).1.type = none
    · rw [if_pos hn]
      have hlt : (st.scanner.get_symbol st.names).2.1.meas < st.scanner.meas :=
        Scanner.get_symbol_scanner_lt _ _ (by rw [hn]; exact fun hc => by cases hc)
      have hle := (ih (display_error
        (absorbSymbol st (st.scanner.get_symbol st.names)) ErrType.NOT_SYMBOL)).1
      rw [display_scanner, absorb_scanner] at hle
      exact ⟨le_of_lt (lt_of_le_of_lt hle hlt), fun _ _ =>
        lt_of_le_of_lt hle hlt⟩
    · rw [if_neg hn]
      constructor
      · rw [absorb_scanner]
        exact Scanner.get_symbol_scanner_le _ _
      · intro _ hne
        rw [absorb_symbol] at hne
        rw [absorb_scanner]
        exact Scanner.get_symbol_scanner_lt _ _ hne

theorem read_symbol_meas_le (st : PState σ) :
    (read_symbol st).scanner.meas ≤ st.scanner.meas :=
  (read_symbolGo_meas _ st).1

theorem read_symbol_meas_lt (st : PState σ)
    (h : (read_symbol st).symbol.type ≠ some SymType.EOF) :
    (read_symbol st).scanner.meas < st.scanner.meas :=
  (read_symbolGo_meas _ st).2 (meas_lt_pFuel st) h

theorem read_symbol_spec (st : PState σ) :
    ((read_symbol st).symbol.type.isSome = true) ∧
    ∃ k, (read_symbol st).error_count = st.error_count + k ∧
      (read_symbol st).error_output =
        st.error_output ++ List.replicate k ErrType.NOT_SYMBOL.msg :=
  read_symbolGo_spec _ st (meas_lt_pFuel st)

/-- A symbol at COMMA/KEYWORD/SEMICOLON/EOF is a fixed point of the
resynchronization loop, whatever the fuel. -/
theorem skip_erraticGo_exit (st : PState σ) (h : atPunct st.symbol) :
    ∀ fuel, skip_erraticGo fuel st = st := by
  intro fuel
  cases fuel with
  | zero => rfl
  | succ fuel =>
    unfold skip_erraticGo
    rcases h with h | h | h | h
    · rw [if_pos h]
    · by_cases h1 : st.symbol.type = some SymType.COMMA
      · rw [if_pos h1]
      · rw [if_neg h1, if_pos (Or.inl h)]
    · by_cases h1 : st.symbol.type = some SymType.COMMA
      · rw [if_pos h1]
      · rw [if_neg h1, if_pos (Or.inr (Or.inl h))]
    · by_cases h1 : st.symbol.type = some SymType.COMMA
      · rw [if_pos h1]
      · rw [if_neg h1, if_pos (Or.inr (Or.inr h))]

theorem skip_erraticGo_succ (fuel : Nat) (st : PState σ) :
    skip_erraticGo (fuel + 1) st =
      if st.symbol.type = some SymType.COMMA then st
      else if st.symbol.type = some SymType.KEYWORD ∨
          st.symbol.type = some SymType.SEMICOLON ∨
          st.symbol.type = some SymType.EOF then st
      else skip_erraticGo fuel (read_symbol st) := rfl

/-- Resynchronization: with fuel exceeding the scanner measure the loop stops
at COMMA, KEYWORD, SEMICOLON or EOF, and the result no longer depends on the
fuel (the loop terminates). -/
theorem skip_erraticGo_main : ∀ (n : Nat) (st : PState σ) (fuel : Nat),
    st.scanner.meas = n → st.scanner.meas + 1 < fuel →
    atPunct (skip_erraticGo fuel st).symbol ∧
    (∀ fuel₂, st.scanner.meas + 1 < fuel₂ →
      skip_erraticGo fuel₂ st = skip_erraticGo fuel st) := by
  intro n
  induction n using Nat.strong_induction_on with
  | _ n ih =>
    intro st fuel hn hf
    by_cases hex : atPunct st.symbol
    · rw [skip_erraticGo_exit st hex]
      exact ⟨hex, fun fuel₂ _ => by rw [skip_erraticGo_exit st hex]⟩
    · have h1 : ¬ st.symbol.type = some SymType.COMMA := fun hc => hex (Or.inl hc)
      have h2 : ¬ (st.symbol.type = some SymType.KEYWORD ∨
          st.symbol.type = some SymType.SEMICOLON ∨
          st.symbol.type = some SymType.EOF) := by
        intro hc
        rcases hc with hc | hc | hc
        · exact hex (Or.inr (Or.inl hc))
        · exact hex (Or.inr (Or.inr (Or.inl hc)))
        · exact hex (Or.inr (Or.inr (Or.inr hc)))
      obtain ⟨f, rfl⟩ : ∃ f, fuel = f + 1 := ⟨fuel - 1, by omega⟩
      rw [skip_erraticGo_succ, if_neg h1, if_neg h2]
      by_cases heof : (read_symbol st).symbol.type = some SymType.EOF
      · have hex' : atPunct (read_symbol st).symbol :=
          Or.inr (Or.inr (Or.inr heof))
        rw [skip_erraticGo_exit _ hex']
        refine ⟨hex', ?_⟩
        intro fuel₂ h₂
        obtain ⟨g, rfl⟩ : ∃ g, fuel₂ = g + 1 := ⟨fuel₂ - 1, by omega⟩
        rw [skip_erraticGo_succ, if_neg h1, if_neg h2,
          skip_erraticGo_exit _ hex']
      · have hlt : (read_symbol st).scanner.meas < st.scanner.meas :=
          read_symbol_meas_lt st heof
        have hf' : (read_symbol st).scanner.meas + 1 < f := by omega
        obtain ⟨hpost, hstab⟩ :=
          ih (read_symbol st).scanner.meas (by omega) (read_symbol st) f rfl hf'
        refine ⟨hpost, ?_⟩
        intro fuel₂ h₂
        obtain ⟨g, rfl⟩ : ∃ g, fuel₂ = g + 1 := ⟨fuel₂ - 1, by omega⟩
        rw [skip_erraticGo_succ, if_neg h1, if_neg h2]
        exact hstab g (by omega)

/-- skip_erratic_part always stops at COMMA, KEYWORD, SEMICOLON or EOF. -/
theorem skip_erratic_part_post (st : PState σ) :
    atPunct (skip_erratic_part st).symbol :=
  (skip_erraticGo_main st.scanner.meas st (pFuel st) rfl
    (meas_succ_lt_pFuel st)).1

/-- The resynchronization loop stabilises: any fuel above the scanner measure
gives the same result as skip_erratic_part. -/
theorem skip_erratic_stabil (st : PState σ) :
    ∀ fuel, st.scanner.meas + 1 < fuel →
      skip_erraticGo fuel st = skip_erratic_part st := by
  intro fuel hfu
  have := (skip_erraticGo_main st.scanner.meas st (pFuel st) rfl
    (meas_succ_lt_pFuel st)).2 fuel hfu
  exact this

/-- Resynchronization only appends `Expected a legal symbol` diagnostics
(from read_symbol's invalid-symbol recovery). -/
theorem skip_erraticGo_output : ∀ (fuel : Nat) (st : PState σ),
    ∃ j, (skip_erraticGo fuel st).error_output =
      st.error_output ++ List.replicate j ErrType.NOT_SYMBOL.msg := by
  intro fuel
  induction fuel with
  | zero => exact fun st => ⟨0, by simp [skip_erraticGo]⟩
  | succ fuel ih =>
    intro st
    rw [skip_erraticGo_succ]
    by_cases h1 : st.symbol.type = some SymType.COMMA
    · rw [if_pos h1]; exact ⟨0, by simp⟩
    · rw [if_neg h1]
      by_cases h2 : st.symbol.type = some SymType.KEYWORD ∨
          st.symbol.type = some SymType.SEMICOLON ∨
          st.symbol.type = some SymType.EOF
      · rw [if_pos h2]; exact ⟨0, by simp⟩
      · rw [if_neg h2]
        obtain ⟨j, hj⟩ := ih (read_symbol st)
        obtain ⟨-, k, -, hk⟩ := read_symbol_spec st
        exact ⟨k + j, by
          rw [hj, hk, List.append_assoc, List.replicate_add]⟩

theorem skip_erratic_part_output (st : PState σ) :
    ∃ j, (skip_erratic_part st).error_output =
      st.error_output ++ List.replicate j ErrType.NOT_SYMBOL.msg :=
  skip_erraticGo_output _ st

theorem get_numberGo_digits : ∀ (fuel : Nat) (s : Scanner),
    ((Scanner.get_numberGo fuel s).1.all pyIsDigit) = true := by
  intro fuel
  induction fuel with
  | zero => intro s; rfl
  | succ fuel ih =>
    intro s
    unfold Scanner.get_numberGo
    cases h : s.current with
    | none => rfl
    | some c =>
      dsimp only
      by_cases hc : pyIsDigit c = true
      · rw [if_pos hc]
        simp only [List.all_cons, hc, Bool.true_and]
        exact ih s.advance
      · rw [if_neg hc]; rfl

/-- Every NUMBER symbol the scanner produces carries a non-empty string of
characters that str.isdigit accepts as its payload. -/
theorem get_symbol_number_payload (s : Scanner) (nm : Names)
    (h : (s.get_symbol nm).1.type = some SymType.NUMBER) :
    digitPayload (s.get_symbol nm).1 := by
  unfold Scanner.get_symbol at h ⊢
  dsimp only at h ⊢
  revert h
  cases hcur : s.skip_comments.current with
  | none => intro h; simp at h
  | some c =>
    intro h
    dsimp only at h ⊢
    by_cases h1 : c.isAlpha = true
    · rw [if_pos h1] at h
      by_cases hk : (s.skip_comments.get_name.1 ∈ Scanner.keywords_list)
      · simp [hk] at h
      · simp [hk] at h
    · rw [if_neg h1] at h ⊢
      by_cases h2 : pyIsDigit c = true
      · rw [if_pos h2] at h ⊢
        refine ⟨(Scanner.get_numberGo
            (Scanner.scanFuel s.skip_comments) s.skip_comments).1,
          rfl, ?_, get_numberGo_digits _ _⟩
        have hfuel : Scanner.scanFuel s.skip_comments =
            (2 * s.skip_comments.input.length + 3) + 1 := rfl
        rw [hfuel]
        unfold Scanner.get_numberGo
        rw [hcur]
        dsimp only
        rw [if_pos h2]
        simp
      · rw [if_neg h2] at h
        split_ifs at h <;> simp at h

/-- read_symbol-level version of the NUMBER-payload invariant. -/
theorem read_symbolGo_number : ∀ (fuel : Nat) (st : PState σ),
    st.scanner.meas < fuel →
    (read_symbolGo fuel st).symbol.type = some SymType.NUMBER →
    digitPayload (read_symbolGo fuel st).symbol := by
  intro fuel
  induction fuel with
  | zero => intro st h; omega
  | succ fuel ih =>
    intro st h
    unfold read_symbolGo
    dsimp only
    simp only [absorb_symbol]
    by_cases hn : (st.scanner.get_symbol st.names).1.type = none
    · rw [if_pos hn]
      have hlt : (st.scanner.get_symbol st.names).2.1.meas < st.scanner.meas :=
        Scanner.get_symbol_scanner_lt _ _ (by rw [hn]; exact fun hc => by cases hc)
      intro hnum
      refine ih _ ?_ hnum
      rw [display_scanner, absorb_scanner]
      omega
    · rw [if_neg hn]
      intro hnum
      rw [absorb_symbol] at hnum ⊢
      exact get_symbol_number_payload _ _ hnum

theorem read_symbol_number (st : PState σ)
    (h : (read_symbol st).symbol.type = some SymType.NUMBER) :
    digitPayload (read_symbol st).symbol :=
  read_symbolGo_number _ st (meas_lt_pFuel st) h

end Parser

theorem digitChar_ne_newline (m : Nat) : Nat.digitChar m ≠ '\n' := by
  by_cases h : m ≤ 15
  · interval_cases m <;> decide
  · have e0 : ¬ m = 0 := by omega
    have e1 : ¬ m = 1 := by omega
    have e2 : ¬ m = 2 := by omega
    have e3 : ¬ m = 3 := by omega
    have e4 : ¬ m = 4 := by omega
    have e5 : ¬ m = 5 := by omega
    have e6 : ¬ m = 6 := by omega
    have e7 : ¬ m = 7 := by omega
    have e8 : ¬ m = 8 := by omega
    have e9 : ¬ m = 9 := by omega
    have ea : ¬ m = 10 := by omega
    have eb : ¬ m = 11 := by omega
    have ec : ¬ m = 12 := by omega
    have ed : ¬ m = 13 := by omega
    have ee : ¬ m = 14 := by omega
    have ef : ¬ m = 15 := by omega
    unfold Nat.digitChar
    rw [if_neg e0, if_neg e1, if_neg e2, if_neg e3, if_neg e4, if_neg e5,
      if_neg e6, if_neg e7, if_neg e8, if_neg e9, if_neg ea, if_neg eb,
      if_neg ec, if_neg ed, if_neg ee, if_neg ef]
    decide

theorem toDigitsCore_mem (b : Nat) : ∀ (fuel n : Nat) (ds : List Char) (c : Char),
    c ∈ Nat.toDigitsCore b fuel n ds → (∃ m, c = Nat.digitChar m) ∨ c ∈ ds := by
  intro fuel
  induction fuel with
  | zero => intro n ds c h; exact Or.inr h
  | succ fuel ih =>
    intro n ds c h
    unfold Nat.toDigitsCore at h
    dsimp only at h
    split_ifs at h with h1
    · rcases List.mem_cons.mp h with h2 | h2
      · exact Or.inl ⟨n % b, h2⟩
      · exact Or.inr h2
    · rcases ih _ _ _ h with h2 | h2
      · exact Or.inl h2
      · rcases List.mem_cons.mp h2 with h3 | h3
        · exact Or.inl ⟨n % b, h3⟩
        · exact Or.inr h3

/-- The decimal rendering of a line number contains no newline. -/
theorem toString_nat_no_newline (n : Nat) : '\n' ∉ (toString n).data := by
  intro hmem
  have hmem2 : '\n' ∈ Nat.toDigits 10 n := by
    simpa [toString, Nat.repr, List.asString, Nat.toDigits] using hmem
  rcases toDigitsCore_mem 10 _ _ _ _ hmem2 with ⟨m, hm⟩ | h2
  · exact digitChar_ne_newline m hm.symm
  · cases h2

/-- Stripping the trailing newline from a readline gives exactly the
newline-free prefix of the rest of the file. -/
theorem stripped_lineTake : ∀ (l : List Char),
    (if Scanner.lineTake l ≠ [] ∧ (Scanner.lineTake l).getLast? = some '\n'
      then (Scanner.lineTake l).dropLast else Scanner.lineTake l) =
    l.takeWhile (fun c => c != '\n') := by
  intro l
  induction l with
  | nil => simp [Scanner.lineTake]
  | cons c cs ih =>
    by_cases hc : c = '\n'
    · subst hc
      have hlt : Scanner.lineTake ('\n' :: cs) = ['\n'] := by
        simp [Scanner.lineTake]
      rw [hlt]
      simp
    · have hlt : Scanner.lineTake (c :: cs) = c :: Scanner.lineTake cs := by
        simp [Scanner.lineTake, hc]
      rw [hlt]
      rw [@List.takeWhile_cons_of_pos Char (fun x => x != '\n') c cs (by simp [hc])]
      rcases hr : Scanner.lineTake cs with - | ⟨d, ds⟩
      · rw [hr] at ih
        simp only [ne_eq, not_true_eq_false, false_and, if_false] at ih
        rw [← ih]
        simp [hc]
      · rw [hr] at ih
        by_cases hlast : (d :: ds).getLast? = some '\n'
        · rw [if_pos ⟨by simp, by rw [List.getLast?_cons_cons]; exact hlast⟩]
          rw [if_pos ⟨by simp, hlast⟩] at ih
          rw [List.dropLast_cons₂, ← ih]
        · rw [if_neg (by
            intro hcon
            exact hlast (by rw [← List.getLast?_cons_cons (a := c)]; exact hcon.2))]
          rw [if_neg (by intro hcon; exact hlast hcon.2)] at ih
          rw [← ih]

/-- If the first d+1 characters are defined and are not newlines, the
newline-free prefix is longer than d. -/
theorem takeWhile_long : ∀ (l : List Char) (d : Nat),
    (∀ i, i ≤ d → ∃ c, l.get? i = some c ∧ (c != '\n') = true) →
    d < (l.takeWhile (fun c => c != '\n')).length := by
  intro l
  induction l with
  | nil =>
    intro d h
    obtain ⟨c, hc, -⟩ := h 0 (Nat.zero_le d)
    simp at hc
  | cons a l ih =>
    intro d h
    obtain ⟨c, hc, hpc⟩ := h 0 (Nat.zero_le d)
    have hca : c = a := by simpa using hc.symm
    subst hca
    rw [@List.takeWhile_cons_of_pos Char (fun x => x != '\n') c l hpc]
    cases d with
    | zero => simp
    | succ d =>
      have hd := ih d (fun i hi => by
        obtain ⟨c2, hc2, hp2⟩ := h (i + 1) (by omega)
        exact ⟨c2, by simpa using hc2, hp2⟩)
      simpa using Nat.succ_lt_succ hd

namespace Scanner

theorem skip_spacesGo_none : ∀ (fuel : Nat) (s : Scanner), s.current = none →
    skip_spacesGo fuel s = s := by
  intro fuel s h
  cases fuel with
  | zero => rfl
  | succ fuel => unfold skip_spacesGo; rw [h]

theorem skip_spaces_none (s : Scanner) (h : s.current = none) :
    s.skip_spaces = s := skip_spacesGo_none _ s h

theorem skip_comments_none (s : Scanner) (h : s.current = none) :
    s.skip_comments = s := by
  unfold skip_comments
  have hfuel : scanFuel s = (2 * s.input.length + 3) + 1 := rfl
  rw [hfuel]
  unfold skip_commentsGo
  dsimp only
  rw [skip_spaces_none s h]
  rw [if_neg (by rw [h]; exact fun hc => by cases hc),
    if_neg (by rw [h]; exact fun hc => by cases hc)]

/-- When the lookahead is exhausted, get_symbol returns the EOF symbol built
from the (unchanged) post-comment state. -/
theorem get_symbol_at_none (s : Scanner) (nm : Names)
    (h : s.skip_comments.current = none) :
    s.get_symbol nm =
      ({ type := some .EOF, id := none,
         line_number := s.skip_comments.line_number,
         cursor_pos_at_start_of_line := s.skip_comments.cursor_pos_at_start_of_line,
         cursor_position := (s.skip_comments.pos : Int) - 1 },
       s.skip_comments, nm) := by
  unfold get_symbol
  dsimp only
  rw [h]

/-- Only the exhausted-lookahead branch of get_symbol yields an EOF symbol. -/
theorem get_symbol_eof_none (s : Scanner) (nm : Names)
    (h : (s.get_symbol nm).1.type = some SymType.EOF) :
    s.skip_comments.current = none := by
  by_contra hne
  obtain ⟨c, hcur⟩ := Option.ne_none_iff_exists'.mp hne
  unfold get_symbol at h
  dsimp only at h
  rw [hcur] at h
  dsimp only at h
  by_cases h1 : c.isAlpha = true
  · rw [if_pos h1] at h
    by_cases hk : (s.skip_comments.get_name.1 ∈ Scanner.keywords_list)
    · simp [hk] at h
    · simp [hk] at h
  · rw [if_neg h1] at h
    by_cases h2 : pyIsDigit c = true
    · rw [if_pos h2] at h; simp at h
    · rw [if_neg h2] at h
      split_ifs at h <;> simp at h

end Scanner

/-- C7: for a location triple whose error offset lies on the line starting at
the given line-start offset, show_error_location renders exactly two lines:
`Line <n>: ` followed by the full source line with the terminator stripped,
and a second line of the same width consisting of spaces and a single caret
in the column of the error offset. -/
theorem c7_caret_rendering (input : List Char) (ln ls err_n : Nat)
    (hle : ls ≤ err_n) (herr : err_n < input.length)
    (hnl : ∀ i, ls ≤ i → i ≤ err_n → input.get? i ≠ some '\n') :
    ∃ first second : String,
      Scanner.show_error_location input ln ls (err_n : Int) =
        first ++ "\n" ++ second ∧
      first = "Line " ++ toString ln ++ ": " ++
        String.mk ((input.drop ls).takeWhile (fun c => c != '\n')) ∧
      '\n' ∉ first.data ∧ '\n' ∉ second.data ∧
      second.length = first.length ∧
      second.data.get? ((toString ln).length + 7 + (err_n - ls)) = some '^' ∧
      second.data.count '^' = 1 ∧
      (∀ c, c ∈ second.data → c = '^' ∨ c = ' ') := by
  have hcaret : ("^" : String).data = ['^'] := by decide
  set L : List Char := (input.drop ls).takeWhile (fun c => c != '\n') with hL
  set d : Nat := err_n - ls with hd
  have hlen : d < L.length := by
    rw [hL]
    apply takeWhile_long
    intro i hi
    have hib : ls + i ≤ err_n := by omega
    have hibl : ls + i < input.length := by omega
    refine ⟨input.get ⟨ls + i, hibl⟩, ?_, ?_⟩
    · rw [List.get?_drop]
      exact List.get?_eq_get hibl
    · have hne := hnl (ls + i) (by omega) hib
      have hget := List.get?_eq_get hibl
      by_contra hcon
      simp only [bne_iff_ne, ne_eq, not_not] at hcon
      exact hne (by rw [hget, hcon])
  set k : Nat := d + (toString ln).length + 7 with hk
  set m : Nat := L.length - 1 - d with hm
  have e1 : ((err_n : Int) - (ls : Int) + ((toString ln).length : Int) + 7).toNat
      = k := by omega
  have e2 : (((L.length : Int) - 1 - ((err_n : Int) - (ls : Int)))).toNat = m := by
    omega
  refine ⟨"Line " ++ toString ln ++ ": " ++ String.mk L,
    String.mk (List.replicate k ' ') ++ "^" ++ String.mk (List.replicate m ' '),
    ?_, rfl, ?_, ?_, ?_, ?_, ?_, ?_⟩
  · unfold Scanner.show_error_location
    dsimp only
    rw [stripped_lineTake, ← hL, e1, e2]
  · intro hmem
    simp only [String.data_append] at hmem
    rcases List.mem_append.mp hmem with h1 | h1
    · rcases List.mem_append.mp h1 with h2 | h2
      · rcases List.mem_append.mp h2 with h3 | h3
        · exact absurd h3 (by decide)
        · exact toString_nat_no_newline ln h3
      · exact absurd h2 (by decide)
    · have := List.mem_takeWhile_imp (hL ▸ h1)
      simp at this
  · intro hmem
    simp only [String.data_append, hcaret] at hmem
    rcases List.mem_append.mp hmem with h1 | h1
    · rcases List.mem_append.mp h1 with h2 | h2
      · exact absurd (List.mem_replicate.mp h2).2 (by decide)
      · exact absurd h2 (by decide)
    · exact absurd (List.mem_replicate.mp h1).2 (by decide)
  · have hl1 : ("Line " : String).length = 5 := by decide
    have hl2 : (": " : String).length = 2 := by decide
    have hl3 : ("^" : String).length = 1 := by decide
    have hl4 : (String.mk L).length = L.length := rfl
    have hl5 : (String.mk (List.replicate k ' ')).length = k := by
      show (List.replicate k ' ').length = k
      simp
    have hl6 : (String.mk (List.replicate m ' ')).length = m := by
      show (List.replicate m ' ').length = m
      simp
    simp only [String.length_append, hl1, hl2, hl3, hl4, hl5, hl6]
    omega
  · have hpos : (toString ln).length + 7 + (err_n - ls) = k := by omega
    rw [hpos]
    simp only [String.data_append, hcaret]
    rw [List.append_assoc]
    rw [List.get?_append_right (by simp)]
    simp
  · simp only [String.data_append, hcaret]
    have hsp : ((' ' : Char) == '^') = false := by decide
    simp [List.count_append, List.count_replicate, hsp]
  · intro c hmem
    simp only [String.data_append, hcaret] at hmem
    rcases List.mem_append.mp hmem with h1 | h1
    · rcases List.mem_append.mp h1 with h2 | h2
      · exact Or.inr (List.mem_replicate.mp h2).2
      · simp at h2
        exact Or.inl h2
    · exact Or.inr (List.mem_replicate.mp h1).2

/-- C7 witness: rendering the error at offset 4 (character d on line 2) of
"ab\ncd". -/
theorem c7_caret_rendering_witness :
    ∃ first second : String,
      Scanner.show_error_location "ab\ncd".data 2 3 ((4 : Nat) : Int) =
        first ++ "\n" ++ second ∧
      first = "Line " ++ toString 2 ++ ": " ++
        String.mk (("ab\ncd".data.drop 3).takeWhile (fun c => c != '\n')) ∧
      '\n' ∉ first.data ∧ '\n' ∉ second.data ∧
      second.length = first.length ∧
      second.data.get? ((toString 2).length + 7 + (4 - 3)) = some '^' ∧
      second.data.count '^' = 1 ∧
      (∀ c, c ∈ second.data → c = '^' ∨ c = ' ') :=
  c7_caret_rendering "ab\ncd".data 2 3 4 (by decide) (by decide)
    (by
      intro i h1 h2
      have hi : i = 3 ∨ i = 4 := by omega
      rcases hi with rfl | rfl <;> decide)

theorem noNL_extend {l : List Char} {a b : Nat} (h : noNL l a b)
    (hb : l.get? b ≠ some '\n') : noNL l a (b + 1) := by
  intro i h1 h2
  rcases Nat.lt_succ_iff_lt_or_eq.mp h2 with h3 | h3
  · exact h i h1 h3
  · subst h3; exact hb

theorem lineTake_length_le : ∀ (l : List Char),
    (Scanner.lineTake l).length ≤ l.length := by
  intro l
  induction l with
  | nil => simp [Scanner.lineTake]
  | cons c cs ih =>
    by_cases hc : c = '\n'
    · subst hc; simp [Scanner.lineTake]
    · have hlt : Scanner.lineTake (c :: cs) = c :: Scanner.lineTake cs := by
        simp [Scanner.lineTake, hc]
      rw [hlt]
      simpa using ih

namespace Scanner

theorem inv_advance {I : List Char} {s : Scanner} (h : ScanInv I s) :
    ScanInv I s.advance := by
  obtain ⟨hinput, hpos, hls, hcur, hnone⟩ := h
  unfold advance read1 update_line_data
  by_cases hnl : s.current = some '\n'
  · rw [if_pos hnl]
    dsimp only
    cases hg : s.input.get? s.pos with
    | some c2 =>
      obtain ⟨hlt, -⟩ := List.get?_eq_some.mp hg
      exact ⟨hinput, by dsimp only; omega, by dsimp only; omega,
        fun c hc => ⟨by dsimp only; omega,
          by simpa using hg.trans (by simpa using hc),
          by dsimp only; omega,
          by intro i h1 h2; dsimp only at h1 h2; omega⟩,
        fun hc => by simp at hc⟩
    | none =>
      have hlen := List.get?_eq_none.mp hg
      exact ⟨hinput, hpos, by dsimp only; omega,
        fun c hc => by simp at hc,
        fun _ => by dsimp only; omega⟩
  · rw [if_neg hnl]
    cases hg : s.input.get? s.pos with
    | some c2 =>
      obtain ⟨hlt, -⟩ := List.get?_eq_some.mp hg
      have hkey : s.cursor_pos_at_start_of_line ≤ s.pos ∧
          noNL s.input s.cursor_pos_at_start_of_line s.pos := by
        cases hc : s.current with
        | none => exact absurd hg (by rw [List.get?_eq_none.mpr (hnone hc)]; simp)
        | some c0 =>
          obtain ⟨h1, h2, h3, h4⟩ := hcur c0 hc
          have hc0 : c0 ≠ '\n' := fun he => hnl (he ▸ hc)
          have hext : noNL s.input s.cursor_pos_at_start_of_line (s.pos - 1 + 1) :=
            noNL_extend h4 (by rw [h2]; simp [hc0])
          constructor
          · omega
          · intro i ha hb
            exact hext i ha (by omega)
      exact ⟨hinput, by dsimp only; omega, by dsimp only; omega,
        fun c hc => ⟨by dsimp only; omega,
          by simpa using hg.trans (by simpa using hc),
          by dsimp only; omega,
          by intro i h1 h2; dsimp only at h1 h2
             exact hkey.2 i h1 (by omega)⟩,
        fun hc => by simp at hc⟩
    | none =>
      have hlen := List.get?_eq_none.mp hg
      exact ⟨hinput, hpos, hls,
        fun c hc => by simp at hc,
        fun _ => by dsimp only; omega⟩

theorem inv_skip_single {I : List Char} {s : Scanner} (h : ScanInv I s) :
    ScanInv I s.skip_single_line_cmt := by
  obtain ⟨hinput, hpos, hls, hcur, hnone⟩ := h
  unfold skip_single_line_cmt readline advance read1 update_line_data
  dsimp only
  have hrl : (lineTake (s.input.drop s.pos)).length ≤ s.input.length - s.pos := by
    have := lineTake_length_le (s.input.drop s.pos)
    simpa using this
  by_cases hnl : s.current = some '\n'
  · rw [if_pos hnl]
    cases hg : s.input.get? (s.pos + (lineTake (s.input.drop s.pos)).length) with
    | some c2 =>
      obtain ⟨hlt, -⟩ := List.get?_eq_some.mp hg
      exact ⟨hinput, by dsimp only; omega, by dsimp only; omega,
        fun c hc => ⟨by dsimp only; omega,
          by simpa using hg.trans (by simpa using hc),
          by dsimp only; omega,
          by intro i h1 h2; dsimp only at h1 h2; omega⟩,
        fun hc => by simp at hc⟩
    | none =>
      have hlen := List.get?_eq_none.mp hg
      exact ⟨hinput, by dsimp only; omega, by dsimp only; omega,
        fun c hc => by simp at hc,
        fun _ => by dsimp only; omega⟩
  · rw [if_neg hnl]
    cases hg : s.input.get? (s.pos + (lineTake (s.input.drop s.pos)).length) with
    | some c2 =>
      obtain ⟨hlt, -⟩ := List.get?_eq_some.mp hg
      exact ⟨hinput, by dsimp only; omega, by dsimp only; omega,
        fun c hc => ⟨by dsimp only; omega,
          by simpa using hg.trans (by simpa using hc),
          by dsimp only; omega,
          by intro i h1 h2; dsimp only at h1 h2; omega⟩,
        fun hc => by simp at hc⟩
    | none =>
      have hlen := List.get?_eq_none.mp hg
      exact ⟨hinput, by dsimp only; omega, by dsimp only; omega,
        fun c hc => by simp at hc,
        fun _ => by dsimp only; omega⟩

theorem inv_skip_multGo {I : List Char} : ∀ (fuel : Nat) (s : Scanner),
    ScanInv I s → ScanInv I (skip_multGo fuel s) := by
  intro fuel
  induction fuel with
  | zero => exact fun s h => h
  | succ fuel ih =>
    intro s h
    unfold skip_multGo
    cases hc : s.current with
    | none => exact h
    | some c =>
      dsimp only
      by_cases hstar : c = '*'
      · rw [if_pos hstar]; exact h
      · rw [if_neg hstar]; exact ih _ (inv_advance h)

theorem inv_skip_mult {I : List Char} {s : Scanner} (h : ScanInv I s) :
    ScanInv I s.skip_mult_line_cmt := by
  unfold skip_mult_line_cmt
  dsimp only
  have h1 : ScanInv I (skip_multGo (scanFuel s) s.advance) :=
    inv_skip_multGo _ _ (inv_advance h)
  cases hc : (skip_multGo (scanFuel s) s.advance).current with
  | none => exact h1
  | some c => exact inv_advance h1

theorem inv_skip_spacesGo {I : List Char} : ∀ (fuel : Nat) (s : Scanner),
    ScanInv I s → ScanInv I (skip_spacesGo fuel s) := by
  intro fuel
  induction fuel with
  | zero => exact fun s h => h
  | succ fuel ih =>
    intro s h
    unfold skip_spacesGo
    cases hc : s.current with
    | none => exact h
    | some c =>
      dsimp only
      by_cases hsp : pyIsSpace c = true
      · rw [if_pos hsp]; exact ih _ (inv_advance h)
      · rw [if_neg hsp]; exact h

theorem inv_skip_commentsGo {I : List Char} : ∀ (fuel : Nat) (s : Scanner),
    ScanInv I s → ScanInv I (skip_commentsGo fuel s) := by
  intro fuel
  induction fuel with
  | zero => exact fun s h => h
  | succ fuel ih =>
    intro s h
    unfold skip_commentsGo
    dsimp only
    have h1 : ScanInv I s.skip_spaces := inv_skip_spacesGo _ _ h
    by_cases hc1 : s.skip_spaces.current = some '#'
    · rw [if_pos hc1]; exact ih _ (inv_skip_single h1)
    · rw [if_neg hc1]
      by_cases hc2 : s.skip_spaces.current = some '*'
      · rw [if_pos hc2]; exact ih _ (inv_skip_mult h1)
      · rw [if_neg hc2]; exact h1

theorem inv_skip_comments {I : List Char} {s : Scanner} (h : ScanInv I s) :
    ScanInv I s.skip_comments := inv_skip_commentsGo _ _ h

theorem inv_get_nameGo {I : List Char} : ∀ (fuel : Nat) (s : Scanner),
    ScanInv I s → ScanInv I (get_nameGo fuel s).2 := by
  intro fuel
  induction fuel with
  | zero => exact fun s h => h
  | succ fuel ih =>
    intro s h
    unfold get_nameGo
    cases hc : s.current with
    | none => exact h
    | some c =>
      dsimp only
      by_cases ha : pyIsAlnum c = true
      · rw [if_pos ha]; exact ih _ (inv_advance h)
      · rw [if_neg ha]; exact h

theorem inv_get_numberGo {I : List Char} : ∀ (fuel : Nat) (s : Scanner),
    ScanInv I s → ScanInv I (get_numberGo fuel s).2 := by
  intro fuel
  induction fuel with
  | zero => exact fun s h => h
  | succ fuel ih =>
    intro s h
    unfold get_numberGo
    cases hc : s.current with
    | none => exact h
    | some c =>
      dsimp only
      by_cases ha : pyIsDigit c = true
      · rw [if_pos ha]; exact ih _ (inv_advance h)
      · rw [if_neg ha]; exact h

theorem inv_get_symbol {I : List Char} {s : Scanner} (nm : Names)
    (h : ScanInv I s) : ScanInv I (s.get_symbol nm).2.1 := by
  have hsc : ScanInv I s.skip_comments := inv_skip_comments h
  unfold get_symbol
  dsimp only
  cases hcur : s.skip_comments.current with
  | none => exact hsc
  | some c =>
    dsimp only
    by_cases h1 : c.isAlpha = true
    · rw [if_pos h1]; exact inv_get_nameGo _ _ hsc
    · rw [if_neg h1]
      by_cases h2 : pyIsDigit c = true
      · rw [if_pos h2]; exact inv_get_numberGo _ _ hsc
      · rw [if_neg h2]
        by_cases h3 : c = '.'
        · rw [if_pos h3]; exact inv_advance hsc
        · rw [if_neg h3]
          by_cases h4 : c = '='
          · rw [if_pos h4]; exact inv_advance hsc
          · rw [if_neg h4]
            by_cases h5 : c = '/'
            · rw [if_pos h5]; exact inv_advance hsc
            · rw [if_neg h5]
              by_cases h6 : c = ','
              · rw [if_pos h6]; exact inv_advance hsc
              · rw [if_neg h6]
                by_cases h7 : c = ';'
                · rw [if_pos h7]; exact inv_advance hsc
                · rw [if_neg h7]; exact inv_advance hsc

/-- Every symbol records the line number, line-start offset and cursor of the
post-comment scanner state. -/
theorem get_symbol_location (s : Scanner) (nm : Names) :
    (s.get_symbol nm).1.cursor_pos_at_start_of_line =
      s.skip_comments.cursor_pos_at_start_of_line ∧
    (s.get_symbol nm).1.cursor_position = (s.skip_comments.pos : Int) - 1 ∧
    (s.get_symbol nm).1.line_number = s.skip_comments.line_number := by
  unfold get_symbol
  dsimp only
  cases hcur : s.skip_comments.current with
  | none => exact ⟨rfl, rfl, rfl⟩
  | some c =>
    dsimp only
    by_cases h1 : c.isAlpha = true
    · rw [if_pos h1]; exact ⟨rfl, rfl, rfl⟩
    · rw [if_neg h1]
      by_cases h2 : pyIsDigit c = true
      · rw [if_pos h2]; exact ⟨rfl, rfl, rfl⟩
      · rw [if_neg h2]
        by_cases h3 : c = '.'
        · rw [if_pos h3]; exact ⟨rfl, rfl, rfl⟩
        · rw [if_neg h3]
          by_cases h4 : c = '='
          · rw [if_pos h4]; exact ⟨rfl, rfl, rfl⟩
          · rw [if_neg h4]
            by_cases h5 : c = '/'
            · rw [if_pos h5]; exact ⟨rfl, rfl, rfl⟩
            · rw [if_neg h5]
              by_cases h6 : c = ','
              · rw [if_pos h6]; exact ⟨rfl, rfl, rfl⟩
              · rw [if_neg h6]
                by_cases h7 : c = ';'
                · rw [if_pos h7]; exact ⟨rfl, rfl, rfl⟩
                · rw [if_neg h7]; exact ⟨rfl, rfl, rfl⟩

theorem inv_mkInit (fname : String) (input : List Char) (nm : Names) :
    ScanInv input (Scanner.mkInit fname input nm).1 := by
  unfold mkInit read1
  dsimp only
  cases hg : input.get? 0 with
  | some c =>
    obtain ⟨hlt, -⟩ := List.get?_eq_some.mp hg
    exact ⟨rfl, by dsimp only; omega, by dsimp only; omega,
      fun c2 hc => ⟨by dsimp only; omega, by simpa using hg.trans (by simpa using hc),
        by dsimp only; omega,
        by intro i ha hb; dsimp only at ha hb; omega⟩,
      fun hc => by simp at hc⟩
  | none =>
    have hlen := List.get?_eq_none.mp hg
    exact ⟨rfl, by dsimp only; omega, by dsimp only; omega,
      fun c hc => by simp at hc,
      fun _ => by dsimp only; omega⟩

end Scanner

theorem reach_inv {fname : String} {input : List Char} {s : Scanner}
    {nm : Names} (h : ScanReach fname input s nm) : ScanInv input s := by
  induction h with
  | init nm0 => exact Scanner.inv_mkInit fname input nm0
  | step _ ih => exact Scanner.inv_get_symbol _ ih

namespace Parser

/-- print_msg never changes the error counter (it only appends display
strings). -/
theorem print_msg_count {σ : Type} (st : PState σ) (b : Bool) (st' : PState σ)
    (h : print_msg st b = some st') : st'.error_count = st.error_count := by
  unfold print_msg at h
  by_cases hb : b = true
  · rw [if_pos hb] at h
    injection h with h
    subst h
    rfl
  · rw [if_neg hb] at h
    dsimp only at h
    repeat' split at h
    all_goals
      first
      | exact Option.noConfusion h
      | (injection h with h; subst h; rfl)

/-- Whenever parse_network returns (rather than raising in print_msg), the
returned flag is true exactly when the final error count is zero. -/
theorem parse_network_returns_iff {σ : Type} (B : Builders σ) (st0 : PState σ)
    (b : Bool) (st : PState σ) (h : parse_network B st0 = some (b, st)) :
    b = true ↔ st.error_count = 0 := by
  unfold parse_network at h
  cases h1 : parse_devices B st0 with
  | none => rw [h1] at h; exact Option.noConfusion h
  | some p1 =>
    obtain ⟨f1, st1⟩ := p1
    rw [h1] at h
    dsimp only at h
    cases h2 : parse_connections B st1 with
    | none => rw [h2] at h; exact Option.noConfusion h
    | some p2 =>
      obtain ⟨f2, st2⟩ := p2
      rw [h2] at h
      dsimp only at h
      cases h3 : parse_monitors B st2 with
      | none => rw [h3] at h; exact Option.noConfusion h
      | some p3 =>
        obtain ⟨f3, st3⟩ := p3
        rw [h3] at h
        dsimp only at h
        by_cases he : st3.error_count = 0
        · rw [if_pos he] at h
          by_cases hf : (B.check_network st3.bstate).1 = false
          · rw [if_pos hf] at h
            split at h
            · split at h
              · exact Option.noConfusion h
              · rename_i st4 hpm
                injection h with h
                injection h with hb hst
                subst hb
                subst hst
                have := print_msg_count _ _ _ hpm
                simp only [this]
                constructor
                · intro hcon; exact Bool.noConfusion hcon
                · intro hcon; omega
            · exact Option.noConfusion h
          · rw [if_neg hf] at h
            split at h
            · exact Option.noConfusion h
            · rename_i st4 hpm
              injection h with h
              injection h with hb hst
              subst hb
              subst hst
              have := print_msg_count _ _ _ hpm
              simp [this, he]
        · rw [if_neg he] at h
          split at h
          · exact Option.noConfusion h
          · rename_i st4 hpm
            injection h with h
            injection h with hb hst
            subst hb
            subst hst
            have := print_msg_count _ _ _ hpm
            simp [this, he]

end Parser

/-- C6 counterexample: on the empty input the scanner's EOF symbol has
cursor_position = file.tell() - 1 = -1, strictly below its line-start offset
0, so the claimed invariant fails for EOF symbols. -/
theorem c6_eof_violates_line_tracking :
    ¬ ((((Scanner.mkInit "t" "".data initNames).1.get_symbol
          (Scanner.mkInit "t" "".data initNames).2).1.cursor_pos_at_start_of_line : Int) ≤
        ((Scanner.mkInit "t" "".data initNames).1.get_symbol
          (Scanner.mkInit "t" "".data initNames).2).1.cursor_position) := by
  decide

/-- C6 amended: for every symbol produced in a scan other than an EOF symbol,
the line-start offset is at most the cursor position, the cursor points at an
existing character of the input, and no newline separates the line start
from the cursor — the cursor's character lies on the recorded line. -/
theorem c6_line_tracking (fname : String) (input : List Char) (s : Scanner)
    (nm : Names) (hr : ScanReach fname input s nm)
    (hne : (s.get_symbol nm).1.type ≠ some SymType.EOF) :
    (((s.get_symbol nm).1.cursor_pos_at_start_of_line : Int) ≤
      (s.get_symbol nm).1.cursor_position) ∧
    0 ≤ (s.get_symbol nm).1.cursor_position ∧
    (∃ c, input.get? (s.get_symbol nm).1.cursor_position.toNat = some c) ∧
    noNL input (s.get_symbol nm).1.cursor_pos_at_start_of_line
      (s.get_symbol nm).1.cursor_position.toNat := by
  have hinv : ScanInv input s := reach_inv hr
  have hsc : ScanInv input s.skip_comments := Scanner.inv_skip_comments hinv
  have hcur : ∃ c, s.skip_comments.current = some c := by
    rcases hc : s.skip_comments.current with - | c
    · have heq := Scanner.get_symbol_at_none s nm hc
      rw [heq] at hne
      exact absurd rfl hne
    · exact ⟨c, rfl⟩
  obtain ⟨c, hc⟩ := hcur
  obtain ⟨h1, h2, h3, h4⟩ := hsc.hcur c hc
  have hinp := hsc.hinput
  obtain ⟨e1, e2, -⟩ := Scanner.get_symbol_location s nm
  rw [e1, e2]
  have hpos : ((s.skip_comments.pos : Int) - 1).toNat = s.skip_comments.pos - 1 := by
    omega
  refine ⟨by omega, by omega, ?_, ?_⟩
  · rw [hpos, ← hinp]
    exact ⟨c, h2⟩
  · rw [hpos, ← hinp]
    exact h4

/-- C6 amended witness: the first symbol of "ab" has line start 0, cursor 0,
and the character a on that line. -/
theorem c6_line_tracking_witness :
    ((((Scanner.mkInit "t" "ab".data initNames).1.get_symbol
        (Scanner.mkInit "t" "ab".data initNames).2).1.cursor_pos_at_start_of_line : Int) ≤
      ((Scanner.mkInit "t" "ab".data initNames).1.get_symbol
        (Scanner.mkInit "t" "ab".data initNames).2).1.cursor_position) ∧
    0 ≤ ((Scanner.mkInit "t" "ab".data initNames).1.get_symbol
        (Scanner.mkInit "t" "ab".data initNames).2).1.cursor_position ∧
    (∃ c, "ab".data.get? ((Scanner.mkInit "t" "ab".data initNames).1.get_symbol
        (Scanner.mkInit "t" "ab".data initNames).2).1.cursor_position.toNat = some c) ∧
    noNL "ab".data
      (((Scanner.mkInit "t" "ab".data initNames).1.get_symbol
        (Scanner.mkInit "t" "ab".data initNames).2).1.cursor_pos_at_start_of_line)
      (((Scanner.mkInit "t" "ab".data initNames).1.get_symbol
        (Scanner.mkInit "t" "ab".data initNames).2).1.cursor_position.toNat) :=
  c6_line_tracking "t" "ab".data _ _ (ScanReach.init initNames) (by decide)

/-- C8: once get_symbol has returned an EOF symbol, every later get_symbol
call returns the very same EOF symbol and leaves the scanner and name table
untouched. -/
theorem c8_eof_idempotent (s : Scanner) (nm : Names)
    (h : (s.get_symbol nm).1.type = some SymType.EOF) :
    ∀ n, scanIter n s nm = s.get_symbol nm ∧
      (scanIter n s nm).1.type = some SymType.EOF := by
  have key : ∀ (s : Scanner) (nm : Names),
      (s.get_symbol nm).1.type = some SymType.EOF →
      (s.get_symbol nm).2.1.get_symbol (s.get_symbol nm).2.2 = s.get_symbol nm := by
    intro s nm h
    have hnone := Scanner.get_symbol_eof_none s nm h
    have h1 := Scanner.get_symbol_at_none s nm hnone
    rw [h1]
    dsimp only
    have hfix : s.skip_comments.skip_comments = s.skip_comments :=
      Scanner.skip_comments_none _ hnone
    have h2 := Scanner.get_symbol_at_none s.skip_comments nm (by rw [hfix]; exact hnone)
    rw [h2, hfix]
  intro n
  induction n generalizing s nm with
  | zero => exact ⟨rfl, h⟩
  | succ n ih =>
    have h' : ((s.get_symbol nm).2.1.get_symbol (s.get_symbol nm).2.2).1.type =
        some SymType.EOF := by rw [key s nm h]; exact h
    have step : scanIter (n + 1) s nm =
        scanIter n (s.get_symbol nm).2.1 (s.get_symbol nm).2.2 := rfl
    obtain ⟨ha, hb⟩ := ih _ _ h'
    rw [step, ha, key s nm h]
    exact ⟨rfl, h⟩

/-- C8 witness: on the empty input the first call returns EOF and two further
calls return the identical EOF symbol. -/
theorem c8_eof_idempotent_witness :
    scanIter 2 (Scanner.mkInit "t" "".data initNames).1
        (Scanner.mkInit "t" "".data initNames).2 =
      (Scanner.mkInit "t" "".data initNames).1.get_symbol
        (Scanner.mkInit "t" "".data initNames).2 ∧
    (scanIter 2 (Scanner.mkInit "t" "".data initNames).1
        (Scanner.mkInit "t" "".data initNames).2).1.type = some SymType.EOF :=
  c8_eof_idempotent _ _ (by decide) 2

/-- C5: for every finite input and every parser state, resynchronization
terminates — any fuel above the scanner measure yields the same final state
as skip_erratic_part, so the loop stabilises — and the symbol it stops at is
COMMA, KEYWORD, SEMICOLON or EOF. -/
theorem c5_resynchronization (σ : Type) (st : PState σ) :
    ((Parser.skip_erratic_part st).symbol.type = some SymType.COMMA ∨
     (Parser.skip_erratic_part st).symbol.type = some SymType.KEYWORD ∨
     (Parser.skip_erratic_part st).symbol.type = some SymType.SEMICOLON ∨
     (Parser.skip_erratic_part st).symbol.type = some SymType.EOF) ∧
    (∀ fuel, st.scanner.meas + 1 < fuel →
      Parser.skip_erraticGo fuel st = Parser.skip_erratic_part st) :=
  ⟨Parser.skip_erratic_part_post st, Parser.skip_erratic_stabil st⟩

/-- C5 witness: a concrete state (lookahead on a NAME, scanner in the middle
of "ab,c") on which resynchronization stops at the comma, with the
stabilisation instantiated at fuel 99. -/
theorem c5_resynchronization_witness :
    ((Parser.skip_erratic_part (Parser.mkParser "t" "ab,c" ())).symbol.type =
      some SymType.COMMA ∨
     (Parser.skip_erratic_part (Parser.mkParser "t" "ab,c" ())).symbol.type =
      some SymType.KEYWORD ∨
     (Parser.skip_erratic_part (Parser.mkParser "t" "ab,c" ())).symbol.type =
      some SymType.SEMICOLON ∨
     (Parser.skip_erratic_part (Parser.mkParser "t" "ab,c" ())).symbol.type =
      some SymType.EOF) ∧
    Parser.skip_erraticGo 99 (Parser.mkParser "t" "ab,c" ()) =
      Parser.skip_erratic_part (Parser.mkParser "t" "ab,c" ()) :=
  ⟨(c5_resynchronization Unit (Parser.mkParser "t" "ab,c" ())).1,
   (c5_resynchronization Unit (Parser.mkParser "t" "ab,c" ())).2 99 (by decide)⟩

/-- C9: read_symbol only hands the grammar productions symbols of the nine
defined kinds (never the invalid None kind); every invalid symbol it skipped
contributed exactly one `Expected a legal symbol` diagnostic, incrementing
error_count once each. -/
theorem c9_read_symbol_valid (σ : Type) (st : PState σ) :
    (Parser.read_symbol st).symbol.type.isSome = true ∧
    ∃ k, (Parser.read_symbol st).error_count = st.error_count + k ∧
      (Parser.read_symbol st).error_output = st.error_output ++
        List.replicate k "SyntaxError: Expected a legal symbol" :=
  Parser.read_symbol_spec st

/-- C9 witness: on the input "$a" the dollar sign is skipped with exactly one
`Expected a legal symbol` diagnostic and a NAME symbol is returned. -/
theorem c9_read_symbol_valid_witness :
    (Parser.read_symbol (Parser.mkParser "t" "$a" ())).symbol.type.isSome = true ∧
    (Parser.read_symbol (Parser.mkParser "t" "$a" ())).symbol.type =
      some SymType.NAME ∧
    (Parser.read_symbol (Parser.mkParser "t" "$a" ())).error_output =
      ["SyntaxError: Expected a legal symbol"] :=
  ⟨(c9_read_symbol_valid Unit (Parser.mkParser "t" "$a" ())).1,
   by decide, by decide⟩

/-- C10 counterexample: Python's str.isdigit is Unicode-aware, so on the
input "²," the scanner produces a NUMBER symbol with the superscript-two
payload "²"; check_number succeeds (the kind is NUMBER), yet int("²") raises
ValueError, so get_parameter raises (outer Option none) instead of returning
None or an integer — refuting the never-raises claim, with no diagnostic
recorded on the way. -/
theorem c10_superscript_payload_raises :
    (Parser.get_parameter (Parser.mkParser "t" "²," ())).1 = none ∧
    (Parser.get_parameter (Parser.mkParser "t" "²," ())).2.symbol.type =
      some SymType.NUMBER ∧
    (Parser.get_parameter (Parser.mkParser "t" "²," ())).2.symbol.id =
      some (SymId.numeral "²") ∧
    (Parser.get_parameter (Parser.mkParser "t" "²," ())).2.error_count = 0 :=
  ⟨by decide, by decide, by decide, by decide⟩

/-- C10, amended: get_parameter returns None right after an `Expected a
number` diagnostic, or a non-negative integer, or raises from int(); the
raising case occurs exactly when the NUMBER payload, a non-empty string of
characters str.isdigit accepts, contains a non-decimal digit character that
int() rejects. -/
theorem c10_get_parameter_characterised (σ : Type) (st : PState σ) :
    ((Parser.get_parameter st).1 = some none →
      ∃ k j, (Parser.get_parameter st).2.error_output = st.error_output ++
        List.replicate k "SyntaxError: Expected a legal symbol" ++
        ["SyntaxError: Expected a number"] ++
        List.replicate j "SyntaxError: Expected a legal symbol") ∧
    (∀ v, (Parser.get_parameter st).1 = some (some v) → 0 ≤ v) ∧
    ((Parser.get_parameter st).1 = none →
      ∃ l, (Parser.get_parameter st).2.symbol.id =
          some (SymId.numeral (String.mk l)) ∧ l ≠ [] ∧
        l.all pyIsDigit = true ∧ ¬ l.all Char.isDigit = true) := by
  unfold Parser.get_parameter
  dsimp only
  by_cases hn : (Parser.read_symbol st).symbol.type = some SymType.NUMBER
  · unfold Parser.check_number
    rw [if_neg (not_not.mpr hn)]
    dsimp only
    rw [if_neg (by simp : ¬ (true = false))]
    obtain ⟨l, hid, hne, hdig⟩ := Parser.read_symbol_number st hn
    rw [hid]
    unfold Parser.pyIntOfId
    dsimp only
    by_cases hdec : (String.mk l).data ≠ [] ∧
        (String.mk l).data.all Char.isDigit = true
    · rw [if_pos hdec]
      refine ⟨by simp, ?_, by simp⟩
      intro v hv
      simp only [Option.some.injEq] at hv
      rw [← hv]
      exact Int.natCast_nonneg _
    · rw [if_neg hdec]
      refine ⟨by simp, by simp, ?_⟩
      intro _
      refine ⟨l, hid, hne, hdig, ?_⟩
      intro hall
      exact hdec ⟨by simpa using hne, by simpa using hall⟩
  · unfold Parser.check_number
    rw [if_pos hn]
    dsimp only
    rw [if_pos rfl]
    refine ⟨?_, by simp, by simp⟩
    intro _
    obtain ⟨-, k, -, hk⟩ := Parser.read_symbol_spec st
    obtain ⟨j, hj⟩ := Parser.skip_erratic_part_output
      (Parser.display_error (Parser.read_symbol st) ErrType.NOT_NUMBER)
    refine ⟨k, j, ?_⟩
    rw [hj, Parser.display_output, hk]
    simp [List.append_assoc, ErrType.msg]

/-- C10 witness: on the decimal parameter "7," get_parameter returns the
integer 7, which the theorem certifies non-negative. -/
theorem c10_get_parameter_characterised_witness :
    (Parser.get_parameter (Parser.mkParser "t" "7," ())).1 = some (some 7) ∧
    (0 : Int) ≤ 7 :=
  ⟨by decide,
   (c10_get_parameter_characterised Unit (Parser.mkParser "t" "7," ())).2.1 7
     (by decide)⟩

/-- C3: on the round-trip input, with builders that accept every action,
parse_network returns true with zero diagnostics, and the builders observe
exactly one create_device(SW1,SWITCH,1), one create_device(CK1,CLOCK,2), one
connect(SW1,none,CK1,I1) and one add_monitor(CK1,none), in that order. -/
theorem c3_round_trip :
    runRT.map Prod.fst = some true ∧
    runRT.map (fun p => p.2.error_count) = some 0 ∧
    runRT.map (fun p => p.2.error_output) = some [] ∧
    runRT.map (fun p => p.2.bstate.map (renderCall p.2.names)) =
      some ["create_device(SW1,SWITCH,1)", "create_device(CK1,CLOCK,2)",
            "connect(SW1,none,CK1,I1)", "add_monitor(CK1,none)"] := by
  refine ⟨by decide, by decide, by decide, by decide⟩

/-- C4 counterexample: on the single-fault input, exactly the one
ExpectedEquals diagnostic is recorded, but the accepting builders observe no
call at all — in particular create_device is never invoked for SW2, so the
claim that SW2 is still created is false on this input. -/
theorem c4_no_sw2_creation :
    runSF.map (fun p => p.2.error_output) =
      some ["SyntaxError: Expected an equals sign"] ∧
    runSF.map (fun p => p.2.bstate.map (renderCall p.2.names)) = some [] := by
  refine ⟨by decide, by decide⟩

/-- C4 amended: on the single-fault input exactly one diagnostic is recorded,
an ExpectedEquals for the SW1 item, and the following item SW2 still parses
cleanly (no further diagnostic, parse_network completes normally), but no
device-creation call is issued for SW2 because add_device suppresses builder
actions once error_count is nonzero. -/
theorem c4_single_fault_isolation :
    runSF.map Prod.fst = some false ∧
    runSF.map (fun p => p.2.error_output) =
      some ["SyntaxError: Expected an equals sign"] ∧
    runSF.map (fun p => p.2.error_count) = some 1 ∧
    runSF.map (fun p => p.2.bstate) = some [] := by
  refine ⟨by decide, by decide, by decide, by decide⟩

/-- C1: the code violates the claimed invariant: on a file whose only fault
is one repeated device identifier, add_device increments semerr_count and
display_error_device increments it again, so parse_network ends with
semerr_count = 2 but error_count = 1 (the failure header would report -1
syntax errors). -/
theorem c1_semerr_exceeds_total :
    runDup.map (fun p => (p.1, p.2.error_count, p.2.semerr_count)) =
      some (false, 1, 2) ∧
    runDup.map (fun p => p.2.error_output) =
      some ["RepeatedIdentifierError: Device 'SW1' is already defined"] := by
  refine ⟨by decide, by decide⟩

/-- C2: on a clean file with one undriven input port, the connectivity check
records its diagnostic and increments both counters, but parse_network then
raises (print_msg reads the loop variable i, never bound when no located
diagnostics exist) instead of returning false: the run ends in the exception
state, while the three sections alone finish with zero errors. -/
theorem c2_unconnected_crash :
    runUndriven.isSome = false ∧
    ((Parser.parse_devices undrivenNet (Parser.mkParser "test" inputUndriven [])).bind
      (fun r => (Parser.parse_connections undrivenNet r.2).bind
      (fun r => (Parser.parse_monitors undrivenNet r.2).map
      (fun r => (r.2.error_count, r.2.error_cursor.length))))) = some (0, 0) := by
  refine ⟨by decide, by decide⟩

end LogSim
